import Mathlib

/-!
Verification of the DnsUpdater repository (src/dns_updater.py) against its
natural-language specification.

The whole program lives in one Python file.  We give a shallow embedding:
the run of the script is a pure function from

  * the initial backing store (the `dns_updater.ini` file, or `none` when it
    is absent), and
  * an environment `Env` supplying the results of the external calls the
    script makes (DNS resolutions via `socket.gethostbyname`, HTTP PUT
    requests via `requests.put`, and the optional SMTP send),

to a result: either normal completion (process exit code 0), a `sys.exit`
call, or an unhandled Python exception (the interpreter then prints the
exception to stderr and exits with code 1).  The run also produces a trace
of observable events (resolutions, store rewrites, outbound PUT calls,
log lines) and the final backing store.

Python string primitives used by the script (`str.split`, `str.strip`,
`str.replace`) are re-implemented here by structural recursion on the
character list so that every theorem can be evaluated by the kernel.
-/

/-! ## Python string primitives -/

/-- Whitespace characters removed by Python `str.strip()` (the ASCII ones;
the script only ever strips host names coming from a comma-separated
configuration value). -/
def pySpace (c : Char) : Bool :=
  c = ' ' || c = '\t' || c = '\n' || c = '\x0d' || c = '\x0b' || c = '\x0c'

/-- Python `str.strip()`: drop leading and trailing whitespace. -/
def pyStrip (s : String) : String :=
  String.mk (((s.data.dropWhile pySpace).reverse.dropWhile pySpace).reverse)

/-- Helper for `pySplit`: accumulate the current chunk (reversed). -/
def splitCharAux (sep : Char) (cur : List Char) : List Char → List String
  | [] => [String.mk cur.reverse]
  | c :: cs =>
    if c = sep then String.mk cur.reverse :: splitCharAux sep [] cs
    else splitCharAux sep (c :: cur) cs

/-- Python `str.split(sep)` for a one-character separator.  In particular
`"".split(",") = [""]`, as in Python. -/
def pySplit (sep : Char) (s : String) : List String :=
  splitCharAux sep [] s.data

/-- Helper for `pyReplace`.  The counter skips the characters of a pattern
occurrence that has just been replaced.  Structural recursion on the list,
so the kernel can evaluate it. -/
def replaceGo (pat repl : List Char) : Nat → List Char → List Char
  | Nat.succ k, _ :: cs => replaceGo pat repl k cs
  | _, [] => []
  | 0, c :: cs =>
    if pat.isPrefixOf (c :: cs) && !pat.isEmpty then
      repl ++ replaceGo pat repl (pat.length - 1) cs
    else c :: replaceGo pat repl 0 cs

/-- Python `s.replace(pat, repl)` (all occurrences, left to right,
non-overlapping).  For the empty pattern we return `s` unchanged; the
script only ever replaces the literal `{host}` placeholder. -/
def pyReplace (s pat repl : String) : String :=
  String.mk (replaceGo pat.data repl.data 0 s.data)

/-- Python `str(x)` on an optional string: `None` prints as `"None"`. -/
def pyStr : Option String → String
  | none => "None"
  | some v => v

/-- Boolean string-prefix test, by structural recursion on character lists. -/
def strStarts (p l : String) : Bool :=
  p.data.isPrefixOf l.data

/-- The numeric value of an ASCII decimal digit. -/
def digitVal (c : Char) : Option Nat :=
  if '0' ≤ c ∧ c ≤ '9' then some (c.toNat - '0'.toNat) else none

/-- Digits of a Python integer literal after the first digit: further
digits with single underscores allowed between digit groups. -/
def digitsGo (acc : Nat) : List Char → Option Nat
  | [] => some acc
  | '_' :: c :: cs =>
    match digitVal c with
    | some d => digitsGo (acc * 10 + d) cs
    | none => none
  | c :: cs =>
    match digitVal c with
    | some d => digitsGo (acc * 10 + d) cs
    | none => none

/-- A non-empty run of decimal digits with single underscores between
digit groups, as Python `int` accepts. -/
def digitsVal : List Char → Option Nat
  | [] => none
  | c :: cs =>
    match digitVal c with
    | some d => digitsGo d cs
    | none => none

/-- Python `int(s)` as used by `configparser.getint`: strip whitespace,
optional sign, ASCII decimal digits with optional single underscores;
anything else raises `ValueError` (`none` here).  Non-ASCII decimal
digits, which Python also accepts, are outside this model's alphabet. -/
def pyParseInt (s : String) : Option Int :=
  let t := ((s.data.dropWhile pySpace).reverse.dropWhile pySpace).reverse
  match t with
  | '+' :: rest => (digitsVal rest).map Int.ofNat
  | '-' :: rest => (digitsVal rest).map (fun n => -(Int.ofNat n))
  | rest => (digitsVal rest).map Int.ofNat

/-- ASCII upper-casing, as `str.upper` acts on the `when` specifier. -/
def pyToUpper (c : Char) : Char :=
  if 'a' ≤ c ∧ c ≤ 'z' then Char.ofNat (c.toNat - 32) else c

/-- The `when` specifiers `logging.handlers.TimedRotatingFileHandler`
accepts (case-insensitive): `S`, `M`, `H`, `D`, `MIDNIGHT`, `W0`..`W6`;
any other value makes its constructor raise `ValueError`. -/
def validWhen (w : String) : Bool :=
  let u := String.mk (w.data.map pyToUpper)
  u == "S" || u == "M" || u == "H" || u == "D" || u == "MIDNIGHT" ||
    (match u.data with
     | ['W', c] => 48 ≤ c.toNat && c.toNat ≤ 54
     | _ => false)

/-! ## The backing store (`dns_updater.ini`)

`configparser.get(section, key, fallback=None)` returns `None` exactly when
the key (or its section) is absent, and the raw string value otherwise
(a key written as `key=` yields the empty string `""`).  We model the file
at that level of abstraction: one optional string per recognized key.
Option names are matched literally; the template and the script use
identical spellings. -/

/-- The parsed content of the `dns_updater.ini` backing store: one field per
recognized configuration key, `none` when the key is absent from the file. -/
structure IniFile where
  version : Option String
  ip : Option String
  ddnsHostname : Option String
  logFile : Option String
  logFileWhen : Option String
  logFileInterval : Option String
  logFileBackupCount : Option String
  smtpServerHost : Option String
  smtpServerPort : Option String
  smtpServerLogin : Option String
  smtpServerPassword : Option String
  emailFromAddress : Option String
  emailFromName : Option String
  emailTo : Option String
  emailChangeResultSubject : Option String
  apikey : Option String
  livednsRecordUrl : Option String
  hosts : Option String
deriving DecidableEq

/-- Section name of an ini section-header line such as `[General]`. -/
def sectionOf (l : String) : String :=
  String.mk ((l.data.drop 1).takeWhile (fun c => c != ']'))

/-- Helper for `iniGet`: scan the lines tracking the current section;
a later duplicate of a key overrides an earlier one. -/
def iniGetAux (sect key : String) (cur : String) (acc : Option String) :
    List String → Option String
  | [] => acc
  | l :: ls =>
    if strStarts "[" l then iniGetAux sect key (sectionOf l) acc ls
    else if cur == sect && strStarts (key ++ "=") l then
      iniGetAux sect key cur (some (String.mk (l.data.drop (key.data.length + 1)))) ls
    else iniGetAux sect key cur acc ls

/-- Look a `section`/`key` pair up in the lines of an ini file.  Lines
starting with `#` are comments (they never match `key=`). -/
def iniGet (lines : List String) (sect key : String) : Option String :=
  iniGetAux sect key "" none lines

/-- The script version constant (source line 35). -/
def VERSION : String := "1.1"

/-- The literal `\x7bhost\x7d` placeholder of `livednsRecordUrl`. -/
def hostPlaceholder : String := "\x7bhost\x7d"

/-- The exact lines written by `Base.__createConfigTemplateIfDoesntExist`
(source lines 66 to 87) when the backing store is absent. -/
def templateLines : List String :=
  [ "[General]",
    "version=1",
    "#ddnsHostname=DYNAMIC_DNS_HOST",
    "ip=",
    "",
    "[Logging]",
    "logFile=dns_updater.log",
    "logFileWhen=midnight",
    "logFileInterval=3600",
    "logFileBackupCount=10",
    "",
    "[Email]",
    "#smtpServerHost=SMTP_HOST",
    "smtpServerPort=25",
    "#smtpServerLogin=SMTP_USER_LOGIN",
    "#smtpServerPassword=SMTP_USER_PASSWORD",
    "#emailFromAddress=FROM_EMAIL_ADDRESS",
    "emailFromName=DNSUpdater",
    "#emailTo=YOUR_EMAIL",
    "emailChangeResultSubject=[DNSUpdater] IP address changed",
    "",
    "[Gandi]",
    "#apikey=YOUR_GANDI_API_KEY",
    "livednsRecordUrl=https://api.gandi.net/v5/livedns/domains/\x7bhost\x7d/records/%%40/A",
    "#hosts=YOUR_HOSTS_SEPARATED_BY_COMMA" ]

/-- Parse ini lines into an `IniFile`, querying the keys exactly as the
script does through `configparser`.  (The `%%` escape of `configparser`
interpolation is not applied; no claim depends on the URL value in the
template.) -/
def parseIni (lines : List String) : IniFile :=
  { version := iniGet lines "General" "version"
    ip := iniGet lines "General" "ip"
    ddnsHostname := iniGet lines "General" "ddnsHostname"
    logFile := iniGet lines "Logging" "logFile"
    logFileWhen := iniGet lines "Logging" "logFileWhen"
    logFileInterval := iniGet lines "Logging" "logFileInterval"
    logFileBackupCount := iniGet lines "Logging" "logFileBackupCount"
    smtpServerHost := iniGet lines "Email" "smtpServerHost"
    smtpServerPort := iniGet lines "Email" "smtpServerPort"
    smtpServerLogin := iniGet lines "Email" "smtpServerLogin"
    smtpServerPassword := iniGet lines "Email" "smtpServerPassword"
    emailFromAddress := iniGet lines "Email" "emailFromAddress"
    emailFromName := iniGet lines "Email" "emailFromName"
    emailTo := iniGet lines "Email" "emailTo"
    emailChangeResultSubject := iniGet lines "Email" "emailChangeResultSubject"
    apikey := iniGet lines "Gandi" "apikey"
    livednsRecordUrl := iniGet lines "Gandi" "livednsRecordUrl"
    hosts := iniGet lines "Gandi" "hosts" }

/-! ## The program model -/

/-- Outcome of one `requests.put` call: either an HTTP response with a
status code, or a transport failure (`requests` raises an exception,
which the script does not catch). -/
inductive HttpOutcome where
  | status (code : Nat)
  | transportError
deriving DecidableEq

/-- Python exceptions that can escape the script uncaught. -/
inductive PyExc where
  /-- `socket.gaierror` from `socket.gethostbyname`. -/
  | resolutionError
  /-- a `requests` transport exception from `requests.put`. -/
  | transportError
  /-- `configparser.NoSectionError` from `parser.set` on an empty parser
  (the dead-store branch of `__getPreviousIPAddress`). -/
  | noSectionError
  /-- an SMTP failure from `envelopes.Envelope.send`. -/
  | smtpError
  /-- `ValueError`, from `parser.getint` on a present non-integer value
  (source lines 319, 320, 400) or from `TimedRotatingFileHandler` on an
  invalid `when` specifier (source line 290). -/
  | valueError
  /-- `AttributeError`, from `Logger.info` and `Logger.error`
  dereferencing the `None` `__loggingLogger` (source lines 338, 347)
  whenever no `logFile` is configured. -/
  | attributeError
deriving DecidableEq

/-- How a run terminates abnormally: an explicit `sys.exit(code)`, or an
unhandled exception (the interpreter then exits with code 1 after printing
the exception to stderr). -/
inductive Halt where
  | exited (code : Nat)
  | raised (e : PyExc)
deriving DecidableEq

/-- Observable events of a run, in order. -/
inductive Event where
  /-- a `socket.gethostbyname` call; `none` records a failed resolution. -/
  | resolve (result : Option String)
  /-- a full rewrite of the backing store with the given content. -/
  | fileWrite (file : IniFile)
  /-- an outbound `requests.put` to `url` for `host`, carrying `ip`. -/
  | put (url host ip : String) (outcome : HttpOutcome)
  /-- the optional notification email going out. -/
  | smtpSend
  /-- an info log line (stdout). -/
  | info (msg : String)
  /-- an error line (stderr). -/
  | err (msg : String)
deriving DecidableEq

/-- The mutable fields of the `DNSUpdater` object, all initially `None`
(source lines 120 to 139), set by `__readConfig`. -/
structure Fields where
  ip : Option String
  ddnsHostname : Option String
  apikey : Option String
  liveDNSRecordUrl : Option String
  hosts : Option String
deriving DecidableEq

/-- The world state threaded through a run: the backing store, the
`DNSUpdater` fields, how many resolutions and HTTP calls have been made
so far, and the event trace. -/
structure St where
  store : Option IniFile
  fields : Fields
  nRes : Nat
  nHttp : Nat
  events : List Event
deriving DecidableEq

/-- Result of running a fragment of the script: normal return with a
value, or a halt (exit or uncaught exception).  Both keep the state. -/
inductive Res (α : Type) where
  | ok (a : α) (s : St)
  | halt (h : Halt) (s : St)
deriving DecidableEq

/-- The environment: results of the external calls, indexed by how many
calls of that kind were already made during the run.  `smtpOk` tells
whether an actually attempted notification send succeeds. -/
structure Env where
  resolver : Nat → Option String
  http : Nat → HttpOutcome
  smtpOk : Bool

/-- A direct `sys.stderr.write` (no `Logger` involvement). -/
def stderrWrite (msg : String) (s : St) : St :=
  { s with events := s.events ++ [Event.err msg] }

/-- The three stderr lines `Logger.__readConfig` writes on a version
mismatch (source lines 313 to 315) before `sys.exit(1)`.  In a mismatch
run this interception fires on the very first log call, made by
`DNSUpdater.__readConfig` to report the same mismatch, so these are the
messages actually observed. -/
def versionMismatchLines (v : Option String) : List Event :=
  [ Event.err ("The configuration file is for version " ++ pyStr v ++
      " but the script is for version " ++ VERSION ++ ".\n"),
    Event.err "Please, upgrade your configuration file to respect the new format.\n",
    Event.err "If you don\x27t know this format, just rename your old ini file and start again\nthe script.\n" ]

/-- `parser.getint(..., fallback=n)` succeeds: the key is absent (the
fallback applies) or its value parses as a Python integer. -/
def intOk : Option String → Bool
  | none => true
  | some v => (pyParseInt v).isSome

/-- The `logFileWhen` value is acceptable to
`TimedRotatingFileHandler`: absent (fallback `midnight`) or valid. -/
def whenOk : Option String → Bool
  | none => true
  | some w => validWhen w

/-- The outcome of constructing the `Logger` singleton
(`Logger.__init__` and `Logger.__readConfig`, source lines 282 to 323):
either the construction dies (version mismatch exits; a bad
`logFileInterval` / `logFileBackupCount` / `logFileWhen` raises
`ValueError`), or the logger is ready, with `__loggingLogger` set
exactly when a `logFile` is configured. -/
inductive LoggerOutcome where
  | fail (h : Halt) (extraEvents : List Event)
  | ready (fileLogging : Bool)
deriving DecidableEq

/-- Whether the `Logger` constructor returns at all. -/
def LoggerOutcome.isReady : LoggerOutcome → Bool
  | LoggerOutcome.ready _ => true
  | LoggerOutcome.fail _ _ => false

/-- The `Logger` construction verdict for a readable store.  The real
`Logger` is a construct-once singleton built lazily at the first
`getLogger()` call; its outcome depends only on the `version` and
`Logging` keys, which no run ever rewrites (only `ip` is), so
re-evaluating this pure verdict at every log call is extensionally the
memoized construction.  The log file open itself is an environment
effect assumed to succeed, like the store writes. -/
def loggerInit (f : IniFile) : LoggerOutcome :=
  if f.version ≠ some VERSION then
    LoggerOutcome.fail (Halt.exited 1) (versionMismatchLines f.version)
  else if intOk f.logFileInterval = false then
    LoggerOutcome.fail (Halt.raised PyExc.valueError) []
  else if intOk f.logFileBackupCount = false then
    LoggerOutcome.fail (Halt.raised PyExc.valueError) []
  else
    match f.logFile with
    | some _ =>
      if whenOk f.logFileWhen then LoggerOutcome.ready true
      else LoggerOutcome.fail (Halt.raised PyExc.valueError) []
    | none => LoggerOutcome.ready false

/-- `Logger.info` (source lines 343 to 348), behind the lazy
`getLogger()` construction: the constructor may die first; otherwise the
stdout line is written, and then `self.__loggingLogger.info` raises an
uncaught `AttributeError` whenever no `logFile` is configured (the line
already printed stays observed).  When the store has vanished, the
constructor's own `__readConfig` reports that and exits. -/
def loggerInfo (msg : String) (s : St) : Res Unit :=
  match s.store with
  | none =>
    Res.halt (Halt.exited 1) (stderrWrite "Can\x27t find the configuration file.\n" s)
  | some f =>
    match loggerInit f with
    | LoggerOutcome.fail h evs => Res.halt h { s with events := s.events ++ evs }
    | LoggerOutcome.ready fileLogging =>
      let s1 := { s with events := s.events ++ [Event.info msg] }
      if fileLogging then Res.ok () s1
      else Res.halt (Halt.raised PyExc.attributeError) s1

/-- `Logger.error` (source lines 334 to 339): as `loggerInfo`, with the
message on stderr. -/
def loggerError (msg : String) (s : St) : Res Unit :=
  match s.store with
  | none =>
    Res.halt (Halt.exited 1) (stderrWrite "Can\x27t find the configuration file.\n" s)
  | some f =>
    match loggerInit f with
    | LoggerOutcome.fail h evs => Res.halt h { s with events := s.events ++ evs }
    | LoggerOutcome.ready fileLogging =>
      let s1 := { s with events := s.events ++ [Event.err msg] }
      if fileLogging then Res.ok () s1
      else Res.halt (Halt.raised PyExc.attributeError) s1

/-- `DNSUpdater.__getCurrentIpAddress` (source lines 249 to 251):
`socket.gethostbyname(self.__ddnsHostname)`.  A failed resolution raises
`socket.gaierror`, which the script never catches. -/
def getCurrentIpAddress (env : Env) (s : St) : Res String :=
  match env.resolver s.nRes with
  | some ip =>
    Res.ok ip { s with nRes := s.nRes + 1,
                       events := s.events ++ [Event.resolve (some ip)] }
  | none =>
    Res.halt (Halt.raised PyExc.resolutionError)
      { s with nRes := s.nRes + 1, events := s.events ++ [Event.resolve none] }

/-- `DNSUpdater.__saveCurrentIPAddress` (source lines 238 to 245): if the
backing store file is readable, resolve the current address AGAIN, set
`self.__ip` and the `ip` key, and rewrite the whole file.  If the file is
absent, do nothing. -/
def saveCurrentIPAddress (env : Env) (s : St) : Res Unit :=
  match s.store with
  | some file =>
    match getCurrentIpAddress env s with
    | Res.ok ip s1 =>
      Res.ok () { s1 with fields := { s1.fields with ip := some ip },
                          store := some { file with ip := some ip },
                          events := s1.events ++ [Event.fileWrite { file with ip := some ip }] }
    | Res.halt h s1 => Res.halt h s1
  | none => Res.ok () s

/-- `DNSUpdater.__getPreviousIPAddress` (source lines 224 to 235): re-read
the store; on an absent or blank `ip` key, bootstrap via
`__saveCurrentIPAddress` and return `self.__ip`.  If the file has
disappeared, the code resolves and then calls `parser.set` on a parser
with no sections, which raises `configparser.NoSectionError`. -/
def getPreviousIPAddress (env : Env) (s : St) : Res (Option String) :=
  match s.store with
  | some file =>
    if file.ip = none ∨ file.ip = some "" then
      match saveCurrentIPAddress env s with
      | Res.ok _ s1 => Res.ok s1.fields.ip s1
      | Res.halt h s1 => Res.halt h s1
    else Res.ok file.ip s
  | none =>
    match getCurrentIpAddress env s with
    | Res.ok _ s1 => Res.halt (Halt.raised PyExc.noSectionError) s1
    | Res.halt h s1 => Res.halt h s1

/-- `DNSUpdater.__updateARecord` (source lines 169 to 177): substitute the
host into the URL template, issue one authenticated PUT carrying the new
address, log success exactly on status 201 and a per-host failure line on
any other status.  A transport failure of `requests.put` raises an
exception the script does not catch.  (The `Authorization: ApiKey` header
and JSON body are part of the `put` call and carry no further control
flow, so they are not separate observables.) -/
def updateARecord (env : Env) (host curIp : String) (s : St) : Res Unit :=
  let url := pyReplace (s.fields.liveDNSRecordUrl.getD "") hostPlaceholder host
  match env.http s.nHttp with
  | HttpOutcome.status c =>
    let s1 := { s with nHttp := s.nHttp + 1,
                       events := s.events ++ [Event.put url host curIp (HttpOutcome.status c)] }
    if c = 201 then loggerInfo ("IP address for " ++ host ++ " updated.") s1
    else loggerError ("Can\x27t update the IP address for " ++ host ++ ".") s1
  | HttpOutcome.transportError =>
    Res.halt (Halt.raised PyExc.transportError)
      { s with nHttp := s.nHttp + 1,
               events := s.events ++ [Event.put url host curIp HttpOutcome.transportError] }

/-- The `for host in hosts:` loop of `updateARecords` (source lines
158 to 159): hosts in configuration order, each stripped. -/
def updateLoop (env : Env) (curIp : String) : List String → St → Res Unit
  | [], s => Res.ok () s
  | host :: rest, s =>
    match updateARecord env (pyStrip host) curIp s with
    | Res.ok _ s1 => updateLoop env curIp rest s1
    | Res.halt h s1 => Res.halt h s1

/-- `EmailSender.send` is attempted only when every SMTP setting is
present (source line 414); `smtpServerPort` always has the integer
fallback 25 and can never be `None`. -/
def emailFullyConfigured (f : IniFile) : Bool :=
  f.smtpServerHost.isSome && f.smtpServerLogin.isSome && f.smtpServerPassword.isSome &&
    f.emailFromAddress.isSome && f.emailFromName.isSome && f.emailTo.isSome

/-- `EmailSender.sendChangeResult` (source lines 424 to 431): if a subject
is configured, build the transcript message and call `send`, which issues
the SMTP transaction only when fully configured.  An SMTP failure raises
out of the script.  (The email body, built from the log history, carries
no control flow and is not modelled.) -/
def sendChangeResult (env : Env) (s : St) : Res Unit :=
  match s.store with
  | some f =>
    if f.emailChangeResultSubject.isSome then
      if emailFullyConfigured f then
        if env.smtpOk then
          Res.ok () { s with events := s.events ++ [Event.smtpSend] }
        else
          Res.halt (Halt.raised PyExc.smtpError)
            { s with events := s.events ++ [Event.smtpSend] }
      else Res.ok () s
    else Res.ok () s
  | none => Res.ok () s

/-- The tail of a changed run (source lines 160 to 161): the summary log
line, then the optional notification. -/
def finishChanged (env : Env) (s : St) : Res Unit :=
  match loggerInfo "IP address updated on Gandi." s with
  | Res.halt h s1 => Res.halt h s1
  | Res.ok _ s1 => sendChangeResult env s1

/-- `DNSUpdater.updateARecords` (source lines 150 to 163): the core
detect-and-propagate workflow.  Every log line goes through the `Logger`
singleton and can kill the run (see `loggerInfo`). -/
def updateARecords (env : Env) (s : St) : Res Unit :=
  match getPreviousIPAddress env s with
  | Res.halt h s1 => Res.halt h s1
  | Res.ok previous s1 =>
    match getCurrentIpAddress env s1 with
    | Res.halt h s2 => Res.halt h s2
    | Res.ok current s2 =>
      match loggerInfo ("Current IP address:  " ++ current) s2 with
      | Res.halt h s3 => Res.halt h s3
      | Res.ok _ s3 =>
        if previous ≠ some current then
          match loggerInfo ("Previous IP address: " ++ pyStr previous) s3 with
          | Res.halt h s4 => Res.halt h s4
          | Res.ok _ s4 =>
            match saveCurrentIPAddress env s4 with
            | Res.halt h s5 => Res.halt h s5
            | Res.ok _ s5 =>
              match updateLoop env current (pySplit ',' (s5.fields.hosts.getD "")) s5 with
              | Res.halt h s6 => Res.halt h s6
              | Res.ok _ s6 => finishChanged env s6
        else
          match loggerInfo "The IP address didn\x27t change." s3 with
          | Res.halt h s4 => Res.halt h s4
          | Res.ok _ s4 => Res.ok () s4

/-- The `DNSUpdater` fields as set by `__readConfig` (source lines
190 to 194): each `parser.get(..., fallback=None)`. -/
def fieldsOf (f : IniFile) : Fields :=
  { ip := f.ip, ddnsHostname := f.ddnsHostname, apikey := f.apikey,
    liveDNSRecordUrl := f.livednsRecordUrl, hosts := f.hosts }

/-- `DNSUpdater.__readConfig` (source lines 180 to 197): fail on a version
mismatch (exit 1), else copy the recognized keys into the object fields;
fail if the file cannot be read. -/
def readConfig (s : St) : Res Unit :=
  match s.store with
  | some f =>
    if f.version ≠ some VERSION then
      Res.halt (Halt.exited 1) { s with events := s.events ++ versionMismatchLines f.version }
    else Res.ok () { s with fields := fieldsOf f }
  | none =>
    Res.halt (Halt.exited 1) (stderrWrite "Can\x27t find the configuration file.\n" s)

/-- A `self.getLogger().error(message)` immediately followed by
`sys.exit(1)`, the error pattern of `__checkConfig`: the `Logger`
construction or the `error` call itself may kill the run first. -/
def logErrorThenExit (msg : String) (s : St) : Res Unit :=
  match loggerError msg s with
  | Res.halt h s1 => Res.halt h s1
  | Res.ok _ s1 => Res.halt (Halt.exited 1) s1

/-- `DNSUpdater.__checkConfig` (source lines 201 to 221): report (via the
`Logger`) and exit 1 on the first field whose value is `None`; a key
present with a blank value is the empty string and passes.  Finally, on
an absent or blank stored `ip`, bootstrap it via
`__saveCurrentIPAddress`. -/
def checkConfig (env : Env) (s : St) : Res Unit :=
  match s.store with
  | none =>
    logErrorThenExit "Can\x27t find the configuration file." s
  | some _ =>
    if s.fields.apikey = none then
      logErrorThenExit "Empty setting for General/apikey." s
    else if s.fields.ddnsHostname = none then
      logErrorThenExit "Empty setting for General/ddnsHostname." s
    else if s.fields.liveDNSRecordUrl = none then
      logErrorThenExit "Empty setting for General/liveDNSRecordUrl." s
    else if s.fields.hosts = none then
      logErrorThenExit "Empty setting for General/hosts." s
    else if s.fields.ip = none ∨ s.fields.ip = some "" then
      saveCurrentIPAddress env s
    else Res.ok () s

/-- `Base.__createConfigTemplateIfDoesntExist` (source lines 60 to 91):
when the backing store is absent, write the template file, tell the
operator with a direct `sys.stderr.write` (no `Logger` involvement), and
`sys.exit(1)`. -/
def createConfigTemplateIfDoesntExist (s : St) : Res Unit :=
  match s.store with
  | some _ => Res.ok () s
  | none =>
    Res.halt (Halt.exited 1)
      (stderrWrite "Creating a template file for the settings.\n"
        { s with store := some (parseIni templateLines),
                 events := s.events ++ [Event.fileWrite (parseIni templateLines)] })

/-- The initial state of a run. -/
def initSt (store0 : Option IniFile) : St :=
  { store := store0,
    fields := { ip := none, ddnsHostname := none, apikey := none,
                liveDNSRecordUrl := none, hosts := none },
    nRes := 0, nHttp := 0, events := [] }

/-- The `EmailSender()` construction (source lines 384 to 409), which
runs after `__checkConfig`: it re-reads the store; its version check
cannot fire (DNSUpdater.__readConfig already exited on a mismatch and no
run rewrites `version`), and of its `parser.get` calls only the
`getint` on `smtpServerPort` (source line 400) can raise: `ValueError`
on a present non-integer value. -/
def emailSenderInit (s : St) : Res Unit :=
  match s.store with
  | none => Res.halt (Halt.exited 1) (stderrWrite "Can\x27t find the configuration file.\n" s)
  | some f =>
    if intOk f.smtpServerPort then Res.ok () s
    else Res.halt (Halt.raised PyExc.valueError) s

/-- One invocation of the script (source lines 434 to 445): construct
`DNSUpdater` (template check, `__readConfig`, `__checkConfig`, then the
`EmailSender` construction), then run `updateARecords`.  The banner and
`Bye !` prints carry no information and are not events. -/
def script (env : Env) (store0 : Option IniFile) : Res Unit :=
  match createConfigTemplateIfDoesntExist (initSt store0) with
  | Res.halt h s => Res.halt h s
  | Res.ok _ s1 =>
    match readConfig s1 with
    | Res.halt h s => Res.halt h s
    | Res.ok _ s2 =>
      match checkConfig env s2 with
      | Res.halt h s => Res.halt h s
      | Res.ok _ s3 =>
        match emailSenderInit s3 with
        | Res.halt h s => Res.halt h s
        | Res.ok _ s4 => updateARecords env s4

/-! ## Observables of a finished run -/

/-- The text the interpreter prints to stderr for an exception that
escaped the script (the final line of the traceback). -/
def pyExcMessage : PyExc → String
  | PyExc.resolutionError => "socket.gaierror: Name or service not known"
  | PyExc.transportError => "requests.exceptions.ConnectionError"
  | PyExc.noSectionError => "configparser.NoSectionError: No section: General"
  | PyExc.smtpError => "smtplib.SMTPException"
  | PyExc.valueError => "ValueError: invalid literal for int() with base 10"
  | PyExc.attributeError => "AttributeError: \x27NoneType\x27 object has no attribute \x27info\x27"

/-- Process exit code: 0 on completion, the `sys.exit` code, or 1 for an
unhandled exception. -/
def exitCode : Res Unit → Nat
  | Res.ok _ _ => 0
  | Res.halt (Halt.exited c) _ => c
  | Res.halt (Halt.raised _) _ => 1

/-- The full observable trace, with the interpreter traceback appended
for a run killed by an exception. -/
def finalEvents : Res Unit → List Event
  | Res.ok _ s => s.events
  | Res.halt (Halt.exited _) s => s.events
  | Res.halt (Halt.raised e) s => s.events ++ [Event.err (pyExcMessage e)]

/-- The backing store after the run. -/
def finalStore : Res Unit → Option IniFile
  | Res.ok _ s => s.store
  | Res.halt _ s => s.store

/-- The `(host, address)` pairs of the outbound record-update calls, in
order. -/
def putPairs (es : List Event) : List (String × String) :=
  es.filterMap fun e =>
    match e with
    | Event.put _ h ip _ => some (h, ip)
    | _ => none

/-- The `ip` value of each rewrite of the backing store, in order. -/
def persistWrites (es : List Event) : List (Option String) :=
  es.filterMap fun e =>
    match e with
    | Event.fileWrite f => some f.ip
    | _ => none

/-- How many name resolutions the run attempted. -/
def resolveCount (es : List Event) : Nat :=
  (es.filterMap fun e =>
    match e with
    | Event.resolve r => some r
    | _ => none).length

/-- The fields whose absence makes `__checkConfig` abort the run
(source lines 208 to 219). -/
def mandatoryKeys : List String :=
  ["apikey", "ddnsHostname", "livednsRecordUrl", "hosts"]

/-- Every configuration key the script reads anywhere, with its section:
`__readConfig` of `DNSUpdater`, of `Logger` and of `EmailSender`. -/
def recognizedKeys : List (String × String) :=
  [ ("General", "version"), ("General", "ip"), ("General", "ddnsHostname"),
    ("Logging", "logFile"), ("Logging", "logFileWhen"),
    ("Logging", "logFileInterval"), ("Logging", "logFileBackupCount"),
    ("Email", "smtpServerHost"), ("Email", "smtpServerPort"),
    ("Email", "smtpServerLogin"), ("Email", "smtpServerPassword"),
    ("Email", "emailFromAddress"), ("Email", "emailFromName"),
    ("Email", "emailTo"), ("Email", "emailChangeResultSubject"),
    ("Gandi", "apikey"), ("Gandi", "livednsRecordUrl"), ("Gandi", "hosts") ]

/-- The keys the template writes as commented placeholders. -/
def commentedTemplateKeys : List String :=
  ["ddnsHostname", "smtpServerHost", "smtpServerLogin", "smtpServerPassword",
   "emailFromAddress", "emailTo", "apikey", "hosts"]

/-- The keys the template writes uncommented with a literal value. -/
def literalTemplateKeys : List String :=
  ["version", "ip", "logFile", "logFileWhen", "logFileInterval",
   "logFileBackupCount", "smtpServerPort", "emailFromName",
   "emailChangeResultSubject", "livednsRecordUrl"]

/-- The error lines of `__checkConfig` that report a missing mandatory
field. -/
def missingFieldMsgs : List String :=
  [ "Empty setting for General/apikey.",
    "Empty setting for General/ddnsHostname.",
    "Empty setting for General/liveDNSRecordUrl.",
    "Empty setting for General/hosts." ]

/-- Whether a result is the missing-mandatory-field fatal error: an
`sys.exit(1)` whose trace carries one of the four `Empty setting` lines. -/
def missingFieldError (r : Res Unit) : Bool :=
  match r with
  | Res.halt (Halt.exited 1) s =>
    s.events.any fun e =>
      match e with
      | Event.err m => missingFieldMsgs.contains m
      | _ => false
  | _ => false

/-! ## Concrete fixtures used by witnesses and counterexamples -/

/-- A well-formed backing store: current script version, a previously
persisted address, file logging configured (so `Logger` calls succeed),
both Gandi hosts configured, notification disabled. -/
def baseIni : IniFile :=
  { version := some "1.1", ip := some "1.1.1.1", ddnsHostname := some "dyn.example.net",
    logFile := some "dns_updater.log", logFileWhen := none,
    logFileInterval := none, logFileBackupCount := none,
    smtpServerHost := none, smtpServerPort := none, smtpServerLogin := none,
    smtpServerPassword := none, emailFromAddress := none, emailFromName := none,
    emailTo := none, emailChangeResultSubject := none,
    apikey := some "KEY", livednsRecordUrl := some "https://api.example.net/\x7bhost\x7d/A",
    hosts := some "a.example.com,b.example.com" }

/-- Store with a single configured host. -/
def iniOneHost : IniFile := { baseIni with hosts := some "a.example.com" }

/-- Store whose persisted address is blank (bootstrap situation). -/
def iniBlankIp : IniFile := { baseIni with ip := some "" }

/-- Store missing the mandatory `apikey` key. -/
def iniNoApikey : IniFile := { baseIni with apikey := none }

/-- Store carrying the version value a generated template carries. -/
def iniOldVersion : IniFile := { baseIni with version := some "1" }

/-- Store missing the mandatory `livednsRecordUrl` key. -/
def iniNoUrl : IniFile := { baseIni with livednsRecordUrl := none }

/-- Environment whose first resolution returns `2.2.2.2` and whose later
resolutions return `3.3.3.3`; every HTTP call answers 201. -/
def envTwoAddr : Env :=
  { resolver := fun i => if i = 0 then some "2.2.2.2" else some "3.3.3.3",
    http := fun _ => HttpOutcome.status 201, smtpOk := true }

/-- Environment that always resolves to `5.5.5.5`, HTTP always 201. -/
def envConst5 : Env :=
  { resolver := fun _ => some "5.5.5.5", http := fun _ => HttpOutcome.status 201,
    smtpOk := true }

/-- Environment that always resolves to the persisted `1.1.1.1`. -/
def envSame : Env :=
  { resolver := fun _ => some "1.1.1.1", http := fun _ => HttpOutcome.status 201,
    smtpOk := true }

/-- Environment where the first HTTP call fails at the transport level and
later ones succeed. -/
def envTransportFail : Env :=
  { resolver := fun i => if i = 0 then some "2.2.2.2" else some "3.3.3.3",
    http := fun i => if i = 0 then HttpOutcome.transportError else HttpOutcome.status 201,
    smtpOk := true }

/-- Environment where the first HTTP call answers 500 and later ones 201. -/
def envFirstHttp500 : Env :=
  { resolver := fun i => if i = 0 then some "2.2.2.2" else some "3.3.3.3",
    http := fun i => if i = 0 then HttpOutcome.status 500 else HttpOutcome.status 201,
    smtpOk := true }

/-- Environment in which name resolution always fails. -/
def envNoDns : Env :=
  { resolver := fun _ => none, http := fun _ => HttpOutcome.status 201, smtpOk := true }

/-- The state at which `__checkConfig` starts in a version-matching run:
keys copied into the fields, no events yet. -/
def stOf (f : IniFile) : St :=
  { store := some f, fields := fieldsOf f, nRes := 0, nHttp := 0, events := [] }

/-! ## Helper lemmas about the individual operations -/

/-- The state a changed run reaches just before the update loop: both
log lines emitted, second resolution persisted. -/
def changedState (f : IniFile) (p cur cur2 : String) : St :=
  { store := some { f with ip := some cur2 },
    fields := { fieldsOf f with ip := some cur2 },
    nRes := 2, nHttp := 0,
    events := [Event.resolve (some cur),
               Event.info ("Current IP address:  " ++ cur),
               Event.info ("Previous IP address: " ++ p),
               Event.resolve (some cur2),
               Event.fileWrite { f with ip := some cur2 }] }

/-- Whichever way a fragment halts, the interpreter traceback appended to
the trace is never an update call. -/
theorem putPairs_finalEvents_halt (h : Halt) (s : St) :
    putPairs (finalEvents (Res.halt h s)) = putPairs s.events := by
  rcases h with c | e <;> simp [finalEvents, putPairs]

/-- Whichever way a fragment halts, the appended traceback is never a
store rewrite. -/
theorem persistWrites_finalEvents_halt (h : Halt) (s : St) :
    persistWrites (finalEvents (Res.halt h s)) = persistWrites s.events := by
  rcases h with c | e <;> simp [finalEvents, persistWrites]

/-- A `Logger` log call with a working file logger just records the line. -/
theorem loggerInfo_ok (msg : String) (s : St) (g : IniFile)
    (hst : s.store = some g) (hlog : loggerInit g = LoggerOutcome.ready true) :
    loggerInfo msg s = Res.ok () { s with events := s.events ++ [Event.info msg] } := by
  simp [loggerInfo, hst, hlog]

/-- Without a configured `logFile`, `Logger.info` prints the line and
then dies on the `None` `__loggingLogger`. -/
theorem loggerInfo_noFile (msg : String) (s : St) (g : IniFile)
    (hst : s.store = some g) (hlog : loggerInit g = LoggerOutcome.ready false) :
    loggerInfo msg s =
      Res.halt (Halt.raised PyExc.attributeError)
        { s with events := s.events ++ [Event.info msg] } := by
  simp [loggerInfo, hst, hlog]

/-- When the `Logger` constructor itself dies, the log line is lost. -/
theorem loggerInfo_fail (msg : String) (s : St) (g : IniFile) (h : Halt) (evs : List Event)
    (hst : s.store = some g) (hlog : loggerInit g = LoggerOutcome.fail h evs) :
    loggerInfo msg s = Res.halt h { s with events := s.events ++ evs } := by
  simp [loggerInfo, hst, hlog]

/-- `Logger.error` with a working file logger just records the line. -/
theorem loggerError_ok (msg : String) (s : St) (g : IniFile)
    (hst : s.store = some g) (hlog : loggerInit g = LoggerOutcome.ready true) :
    loggerError msg s = Res.ok () { s with events := s.events ++ [Event.err msg] } := by
  simp [loggerError, hst, hlog]

/-- Without a configured `logFile`, `Logger.error` prints the line and
then dies on the `None` `__loggingLogger`. -/
theorem loggerError_noFile (msg : String) (s : St) (g : IniFile)
    (hst : s.store = some g) (hlog : loggerInit g = LoggerOutcome.ready false) :
    loggerError msg s =
      Res.halt (Halt.raised PyExc.attributeError)
        { s with events := s.events ++ [Event.err msg] } := by
  simp [loggerError, hst, hlog]

/-- When the `Logger` constructor itself dies, the error line is lost. -/
theorem loggerError_fail (msg : String) (s : St) (g : IniFile) (h : Halt) (evs : List Event)
    (hst : s.store = some g) (hlog : loggerInit g = LoggerOutcome.fail h evs) :
    loggerError msg s = Res.halt h { s with events := s.events ++ evs } := by
  simp [loggerError, hst, hlog]

/-- The events a dying `Logger` constructor emits (the version-mismatch
stderr lines, or nothing for a `ValueError`) contain no update call and
no store rewrite. -/
theorem loggerInit_fail_events (f : IniFile) (h : Halt) (evs : List Event)
    (hl : loggerInit f = LoggerOutcome.fail h evs) :
    putPairs evs = [] ∧ persistWrites evs = [] := by
  simp only [loggerInit] at hl
  split_ifs at hl with h1 h2 h3 h4
  · cases hl
    simp [versionMismatchLines, putPairs, persistWrites]
  · cases hl
    simp [putPairs, persistWrites]
  · cases hl
    simp [putPairs, persistWrites]
  · rcases hlf : f.logFile with _ | lf <;> rw [hlf] at hl <;> simp at hl
  · rcases hlf : f.logFile with _ | lf <;> rw [hlf] at hl
    · simp at hl
    · cases hl
      simp [putPairs, persistWrites]

/-- `EmailSender` construction succeeds when `smtpServerPort` is absent
or parses. -/
theorem emailSenderInit_ok (s : St) (g : IniFile)
    (hst : s.store = some g) (hport : intOk g.smtpServerPort = true) :
    emailSenderInit s = Res.ok () s := by
  simp [emailSenderInit, hst, hport]

/-- `EmailSender` construction dies on a present non-integer
`smtpServerPort`. -/
theorem emailSenderInit_fail (s : St) (g : IniFile)
    (hst : s.store = some g) (hport : intOk g.smtpServerPort = false) :
    emailSenderInit s = Res.halt (Halt.raised PyExc.valueError) s := by
  simp [emailSenderInit, hst, hport]

/-- `__checkConfig`'s error pattern under a working file logger: the
message line, then `sys.exit(1)`. -/
theorem logErrorThenExit_ok (msg : String) (s : St) (g : IniFile)
    (hst : s.store = some g) (hlog : loggerInit g = LoggerOutcome.ready true) :
    logErrorThenExit msg s =
      Res.halt (Halt.exited 1) { s with events := s.events ++ [Event.err msg] } := by
  simp [logErrorThenExit, loggerError_ok msg s g hst hlog]

/-- A successful resolution returns the environment answer and records it. -/
theorem getCurrent_ok (env : Env) (s : St) (ip : String)
    (h : env.resolver s.nRes = some ip) :
    getCurrentIpAddress env s =
      Res.ok ip { s with nRes := s.nRes + 1,
                         events := s.events ++ [Event.resolve (some ip)] } := by
  simp [getCurrentIpAddress, h]

/-- A failed resolution raises `socket.gaierror`. -/
theorem getCurrent_fail (env : Env) (s : St)
    (h : env.resolver s.nRes = none) :
    getCurrentIpAddress env s =
      Res.halt (Halt.raised PyExc.resolutionError)
        { s with nRes := s.nRes + 1, events := s.events ++ [Event.resolve none] } := by
  simp [getCurrentIpAddress, h]

/-- `__saveCurrentIPAddress` on a readable store: resolve afresh, set the
field and the key, rewrite the file. -/
theorem save_ok (env : Env) (s : St) (file : IniFile) (ip : String)
    (hst : s.store = some file) (h : env.resolver s.nRes = some ip) :
    saveCurrentIPAddress env s =
      Res.ok () { s with nRes := s.nRes + 1,
                         fields := { s.fields with ip := some ip },
                         store := some { file with ip := some ip },
                         events := s.events ++ [Event.resolve (some ip),
                                    Event.fileWrite { file with ip := some ip }] } := by
  simp [saveCurrentIPAddress, hst, getCurrent_ok env s ip h]

/-- `__saveCurrentIPAddress` when the fresh resolution fails: the
exception propagates, nothing is written. -/
theorem save_fail (env : Env) (s : St) (file : IniFile)
    (hst : s.store = some file) (h : env.resolver s.nRes = none) :
    saveCurrentIPAddress env s =
      Res.halt (Halt.raised PyExc.resolutionError)
        { s with nRes := s.nRes + 1, events := s.events ++ [Event.resolve none] } := by
  simp [saveCurrentIPAddress, hst, getCurrent_fail env s h]

/-- `__getPreviousIPAddress` with a present, non-blank stored address just
returns it. -/
theorem getPrev_plain (env : Env) (s : St) (f : IniFile) (p : String)
    (hst : s.store = some f) (hip : f.ip = some p) (hp : p ≠ "") :
    getPreviousIPAddress env s = Res.ok (some p) s := by
  simp [getPreviousIPAddress, hst, hip, hp]

/-- A present store skips template generation. -/
theorem template_skip (s : St) (f : IniFile) (hst : s.store = some f) :
    createConfigTemplateIfDoesntExist s = Res.ok () s := by
  simp [createConfigTemplateIfDoesntExist, hst]

/-- `__readConfig` with a matching version copies the keys into fields. -/
theorem readConfig_ok (s : St) (f : IniFile) (hst : s.store = some f)
    (hv : f.version = some VERSION) :
    readConfig s = Res.ok () { s with fields := fieldsOf f } := by
  simp [readConfig, hst, hv]

/-- `__checkConfig` with all mandatory fields set and a non-blank stored
address passes without effect. -/
theorem checkConfig_pass (env : Env) (s : St) (f : IniFile)
    (hst : s.store = some f)
    (ha : s.fields.apikey ≠ none) (hd : s.fields.ddnsHostname ≠ none)
    (hu : s.fields.liveDNSRecordUrl ≠ none) (hh : s.fields.hosts ≠ none)
    (hip : ¬(s.fields.ip = none ∨ s.fields.ip = some "")) :
    checkConfig env s = Res.ok () s := by
  simp only [checkConfig, hst]
  rw [if_neg ha, if_neg hd, if_neg hu, if_neg hh, if_neg hip]

/-- `__checkConfig` with all mandatory fields set and an absent or blank
stored address bootstraps via `__saveCurrentIPAddress`. -/
theorem checkConfig_boot (env : Env) (s : St) (f : IniFile)
    (hst : s.store = some f)
    (ha : s.fields.apikey ≠ none) (hd : s.fields.ddnsHostname ≠ none)
    (hu : s.fields.liveDNSRecordUrl ≠ none) (hh : s.fields.hosts ≠ none)
    (hip : s.fields.ip = none ∨ s.fields.ip = some "") :
    checkConfig env s = saveCurrentIPAddress env s := by
  simp only [checkConfig, hst]
  rw [if_neg ha, if_neg hd, if_neg hu, if_neg hh, if_pos hip]

/-- A run over a well-formed store with a non-blank persisted address and
a parseable SMTP port reaches `updateARecords` with the keys copied into
the fields and no events yet. -/
theorem script_steps (env : Env) (f : IniFile)
    (hv : f.version = some VERSION)
    (ha : f.apikey ≠ none) (hd : f.ddnsHostname ≠ none)
    (hu : f.livednsRecordUrl ≠ none) (hh : f.hosts ≠ none)
    (hip : ¬(f.ip = none ∨ f.ip = some ""))
    (hport : intOk f.smtpServerPort = true) :
    script env (some f) =
      updateARecords env
        { store := some f, fields := fieldsOf f, nRes := 0, nHttp := 0, events := [] } := by
  have h1 := template_skip (initSt (some f)) f rfl
  have h2 := readConfig_ok (initSt (some f)) f rfl hv
  have h3 := checkConfig_pass env { initSt (some f) with fields := fieldsOf f } f rfl ha hd hu hh hip
  have h4 := emailSenderInit_ok { initSt (some f) with fields := fieldsOf f } f rfl hport
  simp only [script, h1, h2, h3, h4]
  rfl

/-- A run over a store whose `smtpServerPort` does not parse dies with
`ValueError` while constructing `EmailSender`, before `updateARecords`. -/
theorem script_steps_portfail (env : Env) (f : IniFile)
    (hv : f.version = some VERSION)
    (ha : f.apikey ≠ none) (hd : f.ddnsHostname ≠ none)
    (hu : f.livednsRecordUrl ≠ none) (hh : f.hosts ≠ none)
    (hip : ¬(f.ip = none ∨ f.ip = some ""))
    (hport : intOk f.smtpServerPort = false) :
    script env (some f) =
      Res.halt (Halt.raised PyExc.valueError)
        { store := some f, fields := fieldsOf f, nRes := 0, nHttp := 0, events := [] } := by
  have h1 := template_skip (initSt (some f)) f rfl
  have h2 := readConfig_ok (initSt (some f)) f rfl hv
  have h3 := checkConfig_pass env { initSt (some f) with fields := fieldsOf f } f rfl ha hd hu hh hip
  have h4 := emailSenderInit_fail { initSt (some f) with fields := fieldsOf f } f rfl hport
  simp only [script, h1, h2, h3, h4]
  rfl

/-- Full characterization of an unchanged run under a working logging
setup: stored address present, non-blank, equal to the resolved one. -/
theorem run_unchanged (env : Env) (f : IniFile) (p : String)
    (hv : f.version = some VERSION)
    (ha : f.apikey ≠ none) (hd : f.ddnsHostname ≠ none)
    (hu : f.livednsRecordUrl ≠ none) (hh : f.hosts ≠ none)
    (hip : f.ip = some p) (hp : p ≠ "")
    (hres : env.resolver 0 = some p)
    (hport : intOk f.smtpServerPort = true)
    (hlog : loggerInit f = LoggerOutcome.ready true) :
    script env (some f) =
      Res.ok () { store := some f, fields := fieldsOf f, nRes := 1, nHttp := 0,
                  events := [Event.resolve (some p),
                             Event.info ("Current IP address:  " ++ p),
                             Event.info "The IP address didn\x27t change."] } := by
  have hip' : ¬(f.ip = none ∨ f.ip = some "") := by simp [hip, hp]
  rw [script_steps env f hv ha hd hu hh hip' hport]
  have h5 := getPrev_plain env
    { store := some f, fields := fieldsOf f, nRes := 0, nHttp := 0, events := [] } f p rfl hip hp
  have h6 := getCurrent_ok env
    { store := some f, fields := fieldsOf f, nRes := 0, nHttp := 0, events := [] } p hres
  simp only [updateARecords, h5, h6]
  simp [loggerInfo, hlog]

/-- Claim C2.  In every run in which the persisted previous address is
present, non-blank and equal to the freshly resolved current address,
the workflow performs zero calls to the Record Updater and does not
rewrite the persisted state (no file write; the backing store is left
unchanged) — whatever the logging and notification configuration does
(even when it kills the run in the `Logger` or `EmailSender`
constructors); and when the SMTP port parses and the logger constructs
with a log file, the run completes with exit code 0. -/
theorem claim2_unchanged_run_is_pure (env : Env) (f : IniFile) (p : String)
    (hv : f.version = some VERSION)
    (ha : f.apikey ≠ none) (hd : f.ddnsHostname ≠ none)
    (hu : f.livednsRecordUrl ≠ none) (hh : f.hosts ≠ none)
    (hip : f.ip = some p) (hp : p ≠ "")
    (hres : env.resolver 0 = some p) :
    putPairs (finalEvents (script env (some f))) = [] ∧
    persistWrites (finalEvents (script env (some f))) = [] ∧
    finalStore (script env (some f)) = some f ∧
    (intOk f.smtpServerPort = true → loggerInit f = LoggerOutcome.ready true →
      exitCode (script env (some f)) = 0) := by
  have hip' : ¬(f.ip = none ∨ f.ip = some "") := by simp [hip, hp]
  by_cases hport : intOk f.smtpServerPort = true
  · have h5 := getPrev_plain env
      { store := some f, fields := fieldsOf f, nRes := 0, nHttp := 0, events := [] } f p rfl hip hp
    have h6 := getCurrent_ok env
      { store := some f, fields := fieldsOf f, nRes := 0, nHttp := 0, events := [] } p hres
    rcases hlogc : loggerInit f with ⟨h, evs⟩ | b
    · obtain ⟨hpe, hpw⟩ := loggerInit_fail_events f h evs hlogc
      have hrun : script env (some f) =
          Res.halt h { store := some f, fields := fieldsOf f, nRes := 1, nHttp := 0,
                       events := Event.resolve (some p) :: evs } := by
        rw [script_steps env f hv ha hd hu hh hip' hport]
        simp only [updateARecords, h5, h6]
        simp [loggerInfo, hlogc]
      rw [hrun]
      refine ⟨?_, ?_, rfl, ?_⟩
      · rw [putPairs_finalEvents_halt]
        simp only [putPairs] at hpe ⊢
        simp [hpe]
      · rw [persistWrites_finalEvents_halt]
        simp only [persistWrites] at hpw ⊢
        simp [hpw]
      · intro _ hlog2
        simp at hlog2
    · cases b
      · have hrun : script env (some f) =
            Res.halt (Halt.raised PyExc.attributeError)
              { store := some f, fields := fieldsOf f, nRes := 1, nHttp := 0,
                events := [Event.resolve (some p),
                           Event.info ("Current IP address:  " ++ p)] } := by
          rw [script_steps env f hv ha hd hu hh hip' hport]
          simp only [updateARecords, h5, h6]
          simp [loggerInfo, hlogc]
        rw [hrun]
        refine ⟨?_, ?_, rfl, ?_⟩
        · rw [putPairs_finalEvents_halt]
          simp [putPairs]
        · rw [persistWrites_finalEvents_halt]
          simp [persistWrites]
        · intro _ hlog2
          simp at hlog2
      · rw [run_unchanged env f p hv ha hd hu hh hip hp hres hport hlogc]
        simp [putPairs, persistWrites, finalEvents, finalStore, exitCode]
  · have hport' : intOk f.smtpServerPort = false := by
      simpa using hport
    rw [script_steps_portfail env f hv ha hd hu hh hip' hport']
    refine ⟨?_, ?_, rfl, ?_⟩
    · rw [putPairs_finalEvents_halt]
      simp [putPairs]
    · rw [persistWrites_finalEvents_halt]
      simp [persistWrites]
    · intro h1 _
      exact absurd h1 hport

/-- Witness for C2 at a concrete store and environment. -/
theorem claim2_witness :
    baseIni.version = some VERSION ∧ baseIni.ip = some "1.1.1.1" ∧
    envSame.resolver 0 = some "1.1.1.1" ∧
    (putPairs (finalEvents (script envSame (some baseIni))) = [] ∧
     persistWrites (finalEvents (script envSame (some baseIni))) = [] ∧
     finalStore (script envSame (some baseIni)) = some baseIni ∧
     (intOk baseIni.smtpServerPort = true → loggerInit baseIni = LoggerOutcome.ready true →
      exitCode (script envSame (some baseIni)) = 0)) :=
  ⟨rfl, rfl, rfl,
    claim2_unchanged_run_is_pure envSame baseIni "1.1.1.1" rfl
      (by decide) (by decide) (by decide) (by decide) rfl (by decide) rfl⟩

/-- Claim C6.  A configuration missing the mandatory `apikey` field makes
the run perform no network calls at all (no resolution, no update
request) and terminate with exit status 1 after the error line naming the
missing field (`Empty setting for General/apikey.`) has reached the error
channel — provided the `Logger` constructor itself returns (its
`parser.getint` calls and the rotating-handler construction do not
raise); the message is emitted whether or not a log file is configured,
because `Logger.error` writes stderr before dereferencing
`__loggingLogger`. -/
theorem claim6_missing_apikey_fatal (env : Env) (f : IniFile)
    (hv : f.version = some VERSION) (hak : f.apikey = none)
    (hready : (loggerInit f).isReady = true) :
    exitCode (script env (some f)) = 1 ∧
    resolveCount (finalEvents (script env (some f))) = 0 ∧
    putPairs (finalEvents (script env (some f))) = [] ∧
    Event.err "Empty setting for General/apikey." ∈ finalEvents (script env (some f)) := by
  have h1 := template_skip (initSt (some f)) f rfl
  have h2 := readConfig_ok (initSt (some f)) f rfl hv
  rcases hlogc : loggerInit f with ⟨h, evs⟩ | b
  · rw [hlogc] at hready
    simp [LoggerOutcome.isReady] at hready
  · cases b
    · have hrun : script env (some f) =
          Res.halt (Halt.raised PyExc.attributeError)
            { store := some f, fields := fieldsOf f, nRes := 0, nHttp := 0,
              events := [Event.err "Empty setting for General/apikey."] } := by
        simp only [script, h1, h2]
        simp [checkConfig, logErrorThenExit, loggerError, fieldsOf, hak, hlogc, initSt]
      rw [hrun]
      simp [exitCode, resolveCount, putPairs, finalEvents]
    · have hrun : script env (some f) =
          Res.halt (Halt.exited 1)
            { store := some f, fields := fieldsOf f, nRes := 0, nHttp := 0,
              events := [Event.err "Empty setting for General/apikey."] } := by
        simp only [script, h1, h2]
        simp [checkConfig, logErrorThenExit, loggerError, fieldsOf, hak, hlogc, initSt]
      rw [hrun]
      simp [exitCode, resolveCount, putPairs, finalEvents]

/-- Witness for C6 at a concrete store and environment. -/
theorem claim6_witness :
    iniNoApikey.version = some VERSION ∧ iniNoApikey.apikey = none ∧
    (loggerInit iniNoApikey).isReady = true ∧
    (exitCode (script envTwoAddr (some iniNoApikey)) = 1 ∧
     resolveCount (finalEvents (script envTwoAddr (some iniNoApikey))) = 0 ∧
     putPairs (finalEvents (script envTwoAddr (some iniNoApikey))) = [] ∧
     Event.err "Empty setting for General/apikey." ∈
       finalEvents (script envTwoAddr (some iniNoApikey))) :=
  ⟨rfl, rfl, by decide,
    claim6_missing_apikey_fatal envTwoAddr iniNoApikey rfl rfl (by decide)⟩

/-- Claim C9.  The generated template stores version value `1` while the
script requires `1.1`: every run against a store carrying the template
version value (whatever the other keys hold, i.e. even after the operator
fills in all mandatory fields) fails the version check, emits the
version-mismatch error lines, makes no network call and exits 1. -/
theorem claim9_template_version_mismatch (env : Env) (f : IniFile)
    (hv : f.version = iniGet templateLines "General" "version") :
    exitCode (script env (some f)) = 1 ∧
    finalEvents (script env (some f)) = versionMismatchLines (some "1") ∧
    resolveCount (finalEvents (script env (some f))) = 0 ∧
    putPairs (finalEvents (script env (some f))) = [] := by
  have htpl : iniGet templateLines "General" "version" = some "1" := by decide
  rw [htpl] at hv
  have h1 := template_skip (initSt (some f)) f rfl
  have hvne : f.version ≠ some VERSION := by rw [hv]; decide
  have h2 : readConfig (initSt (some f)) =
      Res.halt (Halt.exited 1)
        { initSt (some f) with events := versionMismatchLines (some "1") } := by
    simp only [readConfig, initSt]
    rw [if_pos hvne, hv]
    rfl
  simp only [script, h1, h2]
  simp [exitCode, resolveCount, putPairs, finalEvents, versionMismatchLines]

/-- Witness for C9 at a concrete filled-in store carrying version `1`. -/
theorem claim9_witness :
    iniOldVersion.version = iniGet templateLines "General" "version" ∧
    (exitCode (script envTwoAddr (some iniOldVersion)) = 1 ∧
     finalEvents (script envTwoAddr (some iniOldVersion)) = versionMismatchLines (some "1") ∧
     resolveCount (finalEvents (script envTwoAddr (some iniOldVersion))) = 0 ∧
     putPairs (finalEvents (script envTwoAddr (some iniOldVersion))) = []) :=
  ⟨by decide, claim9_template_version_mismatch envTwoAddr iniOldVersion (by decide)⟩

/-- Full characterization of a run whose very first name resolution
fails: the `socket.gaierror` escapes before any log line is attempted. -/
theorem run_resolution_failure (env : Env) (f : IniFile)
    (hv : f.version = some VERSION)
    (ha : f.apikey ≠ none) (hd : f.ddnsHostname ≠ none)
    (hu : f.livednsRecordUrl ≠ none) (hh : f.hosts ≠ none)
    (hport : intOk f.smtpServerPort = true)
    (hres : env.resolver 0 = none) :
    script env (some f) =
      Res.halt (Halt.raised PyExc.resolutionError)
        { store := some f, fields := fieldsOf f, nRes := 1, nHttp := 0,
          events := [Event.resolve none] } := by
  have h1 := template_skip (initSt (some f)) f rfl
  have h2 := readConfig_ok (initSt (some f)) f rfl hv
  by_cases hb : f.ip = none ∨ f.ip = some ""
  · have h3 := checkConfig_boot env { initSt (some f) with fields := fieldsOf f } f rfl ha hd hu hh hb
    have h4 := save_fail env { initSt (some f) with fields := fieldsOf f } f rfl hres
    simp only [script, h1, h2, h3, h4]
    rfl
  · rw [script_steps env f hv ha hd hu hh hb hport]
    rcases hip : f.ip with _ | p
    · exact absurd (Or.inl hip) hb
    · have hp : p ≠ "" := by
        intro h
        exact hb (Or.inr (by rw [hip, h]))
      have h5 := getPrev_plain env
        { store := some f, fields := fieldsOf f, nRes := 0, nHttp := 0, events := [] } f p rfl hip hp
      have h6 := getCurrent_fail env
        { store := some f, fields := fieldsOf f, nRes := 0, nHttp := 0, events := [] } hres
      simp only [updateARecords, h5, h6]
      simp

/-- Claim C8.  When name resolution of the dynamic-DNS hostname fails
(and the `EmailSender` construction that precedes the workflow does not
die first on an unparseable `smtpServerPort`), the run terminates with a
non-zero exit status and the error channel carries the interpreter
traceback explaining the resolution failure (the uncaught
`socket.gaierror`); no record update is attempted.  No log line precedes
the failing resolution, so the logging configuration is immaterial. -/
theorem claim8_resolution_failure_fatal (env : Env) (f : IniFile)
    (hv : f.version = some VERSION)
    (ha : f.apikey ≠ none) (hd : f.ddnsHostname ≠ none)
    (hu : f.livednsRecordUrl ≠ none) (hh : f.hosts ≠ none)
    (hport : intOk f.smtpServerPort = true)
    (hres : env.resolver 0 = none) :
    exitCode (script env (some f)) = 1 ∧
    Event.err (pyExcMessage PyExc.resolutionError) ∈ finalEvents (script env (some f)) ∧
    putPairs (finalEvents (script env (some f))) = [] := by
  rw [run_resolution_failure env f hv ha hd hu hh hport hres]
  simp [exitCode, finalEvents, putPairs]

/-- Witness for C8 at a concrete store and a dead-DNS environment. -/
theorem claim8_witness :
    baseIni.version = some VERSION ∧ envNoDns.resolver 0 = none ∧
    intOk baseIni.smtpServerPort = true ∧
    (exitCode (script envNoDns (some baseIni)) = 1 ∧
     Event.err (pyExcMessage PyExc.resolutionError) ∈ finalEvents (script envNoDns (some baseIni)) ∧
     putPairs (finalEvents (script envNoDns (some baseIni))) = []) :=
  ⟨rfl, rfl, rfl,
    claim8_resolution_failure_fatal envNoDns baseIni rfl
      (by decide) (by decide) (by decide) (by decide) rfl rfl⟩

/-- A bootstrap run (absent or blank persisted address) with all
mandatory fields set and a parseable SMTP port reaches `updateARecords`
with the first resolution persisted. -/
theorem script_steps_boot (env : Env) (f : IniFile) (r1 : String)
    (hv : f.version = some VERSION)
    (ha : f.apikey ≠ none) (hd : f.ddnsHostname ≠ none)
    (hu : f.livednsRecordUrl ≠ none) (hh : f.hosts ≠ none)
    (hb : f.ip = none ∨ f.ip = some "")
    (h0 : env.resolver 0 = some r1)
    (hport : intOk f.smtpServerPort = true) :
    script env (some f) =
      updateARecords env
        { store := some { f with ip := some r1 },
          fields := { fieldsOf f with ip := some r1 },
          nRes := 1, nHttp := 0,
          events := [Event.resolve (some r1),
                     Event.fileWrite { f with ip := some r1 }] } := by
  have h1 := template_skip (initSt (some f)) f rfl
  have h2 := readConfig_ok (initSt (some f)) f rfl hv
  have h3 := checkConfig_boot env { initSt (some f) with fields := fieldsOf f } f rfl ha hd hu hh hb
  have h4 := save_ok env { initSt (some f) with fields := fieldsOf f } f r1 rfl h0
  have h5 := emailSenderInit_ok
    { store := some { f with ip := some r1 }, fields := { fieldsOf f with ip := some r1 },
      nRes := 1, nHttp := 0,
      events := [Event.resolve (some r1), Event.fileWrite { f with ip := some r1 }] }
    { f with ip := some r1 } rfl hport
  have hmain : script env (some f) =
      (match emailSenderInit
          { store := some { f with ip := some r1 },
            fields := { fieldsOf f with ip := some r1 },
            nRes := 1, nHttp := 0,
            events := [Event.resolve (some r1),
                       Event.fileWrite { f with ip := some r1 }] } with
        | Res.halt h s => Res.halt h s
        | Res.ok _ s4 => updateARecords env s4) := by
    simp only [script, h1, h2, h3, h4]
    rfl
  rw [hmain, h5]

/-- Full characterization of a bootstrap run whose two resolutions agree
and whose `Logger` constructs with a log file. -/
theorem run_bootstrap (env : Env) (f : IniFile) (r1 : String)
    (hv : f.version = some VERSION)
    (ha : f.apikey ≠ none) (hd : f.ddnsHostname ≠ none)
    (hu : f.livednsRecordUrl ≠ none) (hh : f.hosts ≠ none)
    (hb : f.ip = none ∨ f.ip = some "")
    (h0 : env.resolver 0 = some r1) (hr1 : r1 ≠ "")
    (h1 : env.resolver 1 = some r1)
    (hport : intOk f.smtpServerPort = true)
    (hlog : loggerInit f = LoggerOutcome.ready true) :
    script env (some f) =
      Res.ok () { store := some { f with ip := some r1 },
                  fields := { fieldsOf f with ip := some r1 },
                  nRes := 2, nHttp := 0,
                  events := [Event.resolve (some r1),
                             Event.fileWrite { f with ip := some r1 },
                             Event.resolve (some r1),
                             Event.info ("Current IP address:  " ++ r1),
                             Event.info "The IP address didn\x27t change."] } := by
  rw [script_steps_boot env f r1 hv ha hd hu hh hb h0 hport]
  have hlog2 : loggerInit { f with ip := some r1 } = LoggerOutcome.ready true := hlog
  have h5 := getPrev_plain env
    { store := some { f with ip := some r1 }, fields := { fieldsOf f with ip := some r1 },
      nRes := 1, nHttp := 0,
      events := [Event.resolve (some r1), Event.fileWrite { f with ip := some r1 }] }
    { f with ip := some r1 } r1 rfl rfl hr1
  have h6 := getCurrent_ok env
    { store := some { f with ip := some r1 }, fields := { fieldsOf f with ip := some r1 },
      nRes := 1, nHttp := 0,
      events := [Event.resolve (some r1), Event.fileWrite { f with ip := some r1 }] }
    r1 h1
  simp only [updateARecords, h5, h6]
  simp [loggerInfo, hlog2]

/-- Claim C3 (amended).  A bootstrap run (absent or blank persisted
address, well-formed store, stable resolver, parseable SMTP port,
working file logger) calls the resolver TWICE — once inside the
`__checkConfig` bootstrap save and once for the comparison in
`updateARecords` — persists exactly the first resolution as the
baseline, performs zero update calls when the second resolution agrees,
and exits 0. -/
theorem claim3_bootstrap_resolves_twice (env : Env) (f : IniFile) (r1 : String)
    (hv : f.version = some VERSION)
    (ha : f.apikey ≠ none) (hd : f.ddnsHostname ≠ none)
    (hu : f.livednsRecordUrl ≠ none) (hh : f.hosts ≠ none)
    (hb : f.ip = none ∨ f.ip = some "")
    (h0 : env.resolver 0 = some r1) (hr1 : r1 ≠ "")
    (h1 : env.resolver 1 = some r1)
    (hport : intOk f.smtpServerPort = true)
    (hlog : loggerInit f = LoggerOutcome.ready true) :
    resolveCount (finalEvents (script env (some f))) = 2 ∧
    persistWrites (finalEvents (script env (some f))) = [some r1] ∧
    putPairs (finalEvents (script env (some f))) = [] ∧
    finalStore (script env (some f)) = some { f with ip := some r1 } ∧
    exitCode (script env (some f)) = 0 := by
  rw [run_bootstrap env f r1 hv ha hd hu hh hb h0 hr1 h1 hport hlog]
  simp [resolveCount, persistWrites, putPairs, finalEvents, finalStore, exitCode]

/-- Counterexample to C3 as stated: on a store with a blank persisted
address and a constant resolver, the run makes TWO resolver calls, not
the single call the claim requires (it persists that value and performs
zero update calls, as the claim says). -/
theorem claim3_counterexample :
    resolveCount (finalEvents (script envConst5 (some iniBlankIp))) = 2 ∧
    persistWrites (finalEvents (script envConst5 (some iniBlankIp))) = [some "5.5.5.5"] ∧
    putPairs (finalEvents (script envConst5 (some iniBlankIp))) = [] := by
  decide

/-- Witness for the amended C3 at a concrete store and environment. -/
theorem claim3_witness :
    iniBlankIp.ip = some "" ∧ envConst5.resolver 0 = some "5.5.5.5" ∧
    (resolveCount (finalEvents (script envConst5 (some iniBlankIp))) = 2 ∧
     persistWrites (finalEvents (script envConst5 (some iniBlankIp))) = [some "5.5.5.5"] ∧
     putPairs (finalEvents (script envConst5 (some iniBlankIp))) = [] ∧
     finalStore (script envConst5 (some iniBlankIp)) = some { iniBlankIp with ip := some "5.5.5.5" } ∧
     exitCode (script envConst5 (some iniBlankIp)) = 0) :=
  ⟨rfl, rfl,
    claim3_bootstrap_resolves_twice envConst5 iniBlankIp "5.5.5.5" rfl
      (by decide) (by decide) (by decide) (by decide) (Or.inr rfl) rfl (by decide) rfl
      (by decide) (by decide)⟩

/-- Claim C10.  Under a `Logger` that constructs with a log file (so that
`Logger.error` returns), the missing-mandatory-field fatal error fires if
and only if one of the four mandatory keys is entirely absent (`None`
from `configparser`); a key present with a blank value is the empty
string, passes every `== None` check, and `__checkConfig` returns with
the fields untouched, so the run proceeds with the empty value. -/
theorem claim10_missing_iff_absent (env : Env) (s : St) (f : IniFile)
    (hst : s.store = some f) (hfld : s.fields = fieldsOf f) (hev : s.events = [])
    (hlog : loggerInit f = LoggerOutcome.ready true) :
    (missingFieldError (checkConfig env s) = true ↔
      (f.apikey = none ∨ f.ddnsHostname = none ∨ f.livednsRecordUrl = none ∨ f.hosts = none)) ∧
    ((f.apikey ≠ none ∧ f.ddnsHostname ≠ none ∧ f.livednsRecordUrl ≠ none ∧ f.hosts ≠ none) →
      ¬(f.ip = none ∨ f.ip = some "") → checkConfig env s = Res.ok () s) := by
  have fa : (fieldsOf f).apikey = f.apikey := rfl
  have fd : (fieldsOf f).ddnsHostname = f.ddnsHostname := rfl
  have fu : (fieldsOf f).liveDNSRecordUrl = f.livednsRecordUrl := rfl
  have fh : (fieldsOf f).hosts = f.hosts := rfl
  have fi : (fieldsOf f).ip = f.ip := rfl
  refine ⟨⟨fun hm => ?_, fun hor => ?_⟩, fun hall hip => ?_⟩
  · by_contra hnone
    push_neg at hnone
    obtain ⟨ha, hd, hu, hh⟩ := hnone
    have ha' : s.fields.apikey ≠ none := by rw [hfld, fa]; exact ha
    have hd' : s.fields.ddnsHostname ≠ none := by rw [hfld, fd]; exact hd
    have hu' : s.fields.liveDNSRecordUrl ≠ none := by rw [hfld, fu]; exact hu
    have hh' : s.fields.hosts ≠ none := by rw [hfld, fh]; exact hh
    by_cases hip : s.fields.ip = none ∨ s.fields.ip = some ""
    · rw [checkConfig_boot env s f hst ha' hd' hu' hh' hip] at hm
      rcases hr : env.resolver s.nRes with _ | v
      · rw [save_fail env s f hst hr] at hm
        simp [missingFieldError] at hm
      · rw [save_ok env s f v hst hr] at hm
        simp [missingFieldError] at hm
    · rw [checkConfig_pass env s f hst ha' hd' hu' hh' hip] at hm
      simp [missingFieldError] at hm
  · simp only [checkConfig, hst, hfld, fieldsOf]
    rcases hor with h | h | h | h
    · rw [if_pos h, logErrorThenExit_ok _ s f hst hlog]
      simp [missingFieldError, hev, missingFieldMsgs]
    · by_cases hA : f.apikey = none
      · rw [if_pos hA, logErrorThenExit_ok _ s f hst hlog]
        simp [missingFieldError, hev, missingFieldMsgs]
      · rw [if_neg hA, if_pos h, logErrorThenExit_ok _ s f hst hlog]
        simp [missingFieldError, hev, missingFieldMsgs]
    · by_cases hA : f.apikey = none
      · rw [if_pos hA, logErrorThenExit_ok _ s f hst hlog]
        simp [missingFieldError, hev, missingFieldMsgs]
      · rw [if_neg hA]
        by_cases hB : f.ddnsHostname = none
        · rw [if_pos hB, logErrorThenExit_ok _ s f hst hlog]
          simp [missingFieldError, hev, missingFieldMsgs]
        · rw [if_neg hB, if_pos h, logErrorThenExit_ok _ s f hst hlog]
          simp [missingFieldError, hev, missingFieldMsgs]
    · by_cases hA : f.apikey = none
      · rw [if_pos hA, logErrorThenExit_ok _ s f hst hlog]
        simp [missingFieldError, hev, missingFieldMsgs]
      · rw [if_neg hA]
        by_cases hB : f.ddnsHostname = none
        · rw [if_pos hB, logErrorThenExit_ok _ s f hst hlog]
          simp [missingFieldError, hev, missingFieldMsgs]
        · rw [if_neg hB]
          by_cases hC : f.livednsRecordUrl = none
          · rw [if_pos hC, logErrorThenExit_ok _ s f hst hlog]
            simp [missingFieldError, hev, missingFieldMsgs]
          · rw [if_neg hC, if_pos h, logErrorThenExit_ok _ s f hst hlog]
            simp [missingFieldError, hev, missingFieldMsgs]
  · obtain ⟨ha, hd, hu, hh⟩ := hall
    have ha' : s.fields.apikey ≠ none := by rw [hfld, fa]; exact ha
    have hd' : s.fields.ddnsHostname ≠ none := by rw [hfld, fd]; exact hd
    have hu' : s.fields.liveDNSRecordUrl ≠ none := by rw [hfld, fu]; exact hu
    have hh' : s.fields.hosts ≠ none := by rw [hfld, fh]; exact hh
    have hip' : ¬(s.fields.ip = none ∨ s.fields.ip = some "") := by rw [hfld, fi]; exact hip
    exact checkConfig_pass env s f hst ha' hd' hu' hh' hip'

/-- Witness for C10 at a store whose `apikey` key is absent. -/
theorem claim10_witness :
    ((stOf iniNoApikey).store = some iniNoApikey ∧
     (stOf iniNoApikey).fields = fieldsOf iniNoApikey ∧
     (stOf iniNoApikey).events = [] ∧
     loggerInit iniNoApikey = LoggerOutcome.ready true) ∧
    ((missingFieldError (checkConfig envTwoAddr (stOf iniNoApikey)) = true ↔
       (iniNoApikey.apikey = none ∨ iniNoApikey.ddnsHostname = none ∨
        iniNoApikey.livednsRecordUrl = none ∨ iniNoApikey.hosts = none)) ∧
     ((iniNoApikey.apikey ≠ none ∧ iniNoApikey.ddnsHostname ≠ none ∧
       iniNoApikey.livednsRecordUrl ≠ none ∧ iniNoApikey.hosts ≠ none) →
      ¬(iniNoApikey.ip = none ∨ iniNoApikey.ip = some "") →
      checkConfig envTwoAddr (stOf iniNoApikey) = Res.ok () (stOf iniNoApikey))) :=
  ⟨⟨rfl, rfl, rfl, by decide⟩,
    claim10_missing_iff_absent envTwoAddr (stOf iniNoApikey) iniNoApikey rfl rfl rfl (by decide)⟩

/-- `__updateARecord` on an HTTP response under a working file logger:
one outbound PUT, then the success line exactly on status 201 and the
per-host failure line on any other status; the loop continues either way
(`Res.ok`). -/
theorem updateARecord_status (env : Env) (host curIp : String) (s : St) (g : IniFile) (c : Nat)
    (hst : s.store = some g) (hlog : loggerInit g = LoggerOutcome.ready true)
    (hc : env.http s.nHttp = HttpOutcome.status c) :
    updateARecord env host curIp s =
      Res.ok () { s with nHttp := s.nHttp + 1,
                         events := s.events ++
                           [Event.put (pyReplace (s.fields.liveDNSRecordUrl.getD "") hostPlaceholder host)
                              host curIp (HttpOutcome.status c),
                            if c = 201 then Event.info ("IP address for " ++ host ++ " updated.")
                            else Event.err ("Can\x27t update the IP address for " ++ host ++ ".")] } := by
  by_cases h201 : c = 201 <;>
    simp [updateARecord, hc, loggerInfo, loggerError, hst, hlog, h201]

/-- `__updateARecord` on a transport failure: the PUT is attempted, the
`requests` exception escapes and kills the run before any log line. -/
theorem updateARecord_transport (env : Env) (host curIp : String) (s : St)
    (hc : env.http s.nHttp = HttpOutcome.transportError) :
    updateARecord env host curIp s =
      Res.halt (Halt.raised PyExc.transportError)
        { s with nHttp := s.nHttp + 1,
                 events := s.events ++
                   [Event.put (pyReplace (s.fields.liveDNSRecordUrl.getD "") hostPlaceholder host)
                      host curIp HttpOutcome.transportError] } := by
  simp [updateARecord, hc]

/-- When every HTTP call returns a response (no transport failure) and
the file logger works, the update loop visits every host in order,
performs exactly one PUT per host carrying the given address, and never
writes the store. -/
theorem updateLoop_statuses (env : Env) (cur : String) (g : IniFile)
    (hlog : loggerInit g = LoggerOutcome.ready true)
    (hall : ∀ i, ∃ c, env.http i = HttpOutcome.status c) :
    ∀ (hs : List String) (s : St), s.store = some g → ∃ extra,
      updateLoop env cur hs s =
        Res.ok () { s with nHttp := s.nHttp + hs.length, events := s.events ++ extra } ∧
      putPairs extra = hs.map (fun h => (pyStrip h, cur)) ∧
      persistWrites extra = [] := by
  intro hs
  induction hs with
  | nil =>
    intro s _
    refine ⟨[], ?_, by simp [putPairs], by simp [persistWrites]⟩
    simp [updateLoop]
  | cons h t ih =>
    intro s hst
    obtain ⟨c, hc⟩ := hall s.nHttp
    have hrec := updateARecord_status env (pyStrip h) cur s g c hst hlog hc
    obtain ⟨extra, heq, hput, hpers⟩ :=
      ih { s with nHttp := s.nHttp + 1,
                  events := s.events ++
                    [Event.put (pyReplace (s.fields.liveDNSRecordUrl.getD "") hostPlaceholder (pyStrip h))
                       (pyStrip h) cur (HttpOutcome.status c),
                     if c = 201 then Event.info ("IP address for " ++ pyStrip h ++ " updated.")
                     else Event.err ("Can\x27t update the IP address for " ++ pyStrip h ++ ".")] }
        hst
    refine ⟨Event.put (pyReplace (s.fields.liveDNSRecordUrl.getD "") hostPlaceholder (pyStrip h))
              (pyStrip h) cur (HttpOutcome.status c) ::
            (if c = 201 then Event.info ("IP address for " ++ pyStrip h ++ " updated.")
             else Event.err ("Can\x27t update the IP address for " ++ pyStrip h ++ ".")) :: extra,
            ?_, ?_, ?_⟩
    · simp only [updateLoop, hrec]
      rw [heq]
      simp [Nat.add_assoc, Nat.add_comm]
      omega
    · by_cases h201 : c = 201 <;> simp [putPairs, h201] at hput ⊢ <;> simpa using hput
    · by_cases h201 : c = 201 <;> simp [persistWrites, h201] at hpers ⊢ <;> simpa using hpers

/-- The update loop on exactly two hosts under a working file logger,
the first answered with a non-201 status and the second with 201. -/
theorem updateLoop_two (env : Env) (cur hA hB : String) (s : St) (g : IniFile) (c : Nat)
    (hst : s.store = some g) (hlog : loggerInit g = LoggerOutcome.ready true)
    (hc0 : env.http s.nHttp = HttpOutcome.status c) (hcne : c ≠ 201)
    (hc1 : env.http (s.nHttp + 1) = HttpOutcome.status 201) :
    updateLoop env cur [hA, hB] s =
      Res.ok () { s with nHttp := s.nHttp + 1 + 1,
                         events := s.events ++
                           [Event.put (pyReplace (s.fields.liveDNSRecordUrl.getD "") hostPlaceholder (pyStrip hA))
                              (pyStrip hA) cur (HttpOutcome.status c),
                            Event.err ("Can\x27t update the IP address for " ++ pyStrip hA ++ "."),
                            Event.put (pyReplace (s.fields.liveDNSRecordUrl.getD "") hostPlaceholder (pyStrip hB))
                              (pyStrip hB) cur (HttpOutcome.status 201),
                            Event.info ("IP address for " ++ pyStrip hB ++ " updated.")] } := by
  have e1 := updateARecord_status env (pyStrip hA) cur s g c hst hlog hc0
  rw [if_neg hcne] at e1
  have e2 := updateARecord_status env (pyStrip hB) cur
    { s with nHttp := s.nHttp + 1,
             events := s.events ++
               [Event.put (pyReplace (s.fields.liveDNSRecordUrl.getD "") hostPlaceholder (pyStrip hA))
                  (pyStrip hA) cur (HttpOutcome.status c),
                Event.err ("Can\x27t update the IP address for " ++ pyStrip hA ++ ".")] }
    g 201 hst hlog hc1
  simp at e2
  simp only [updateLoop, e1, e2]

/-- Whatever `sendChangeResult` does (nothing, a successful send, or an
SMTP failure killing the run), it only appends events that are neither
record-update calls nor store writes, and it never touches the store. -/
theorem sendChangeResult_events (env : Env) (s : St) :
    ∃ extra, finalEvents (sendChangeResult env s) = s.events ++ extra ∧
      putPairs extra = [] ∧ persistWrites extra = [] ∧
      finalStore (sendChangeResult env s) = s.store := by
  obtain ⟨sst, sfl, snr, snh, sev⟩ := s
  rcases sst with _ | f
  · exact ⟨[], by simp [sendChangeResult, finalEvents], by simp [putPairs],
      by simp [persistWrites], by simp [sendChangeResult, finalStore]⟩
  · by_cases hsub : f.emailChangeResultSubject.isSome
    · by_cases hconf : emailFullyConfigured f
      · by_cases hok : env.smtpOk
        · exact ⟨[Event.smtpSend],
            by simp [sendChangeResult, hsub, hconf, hok, finalEvents],
            by simp [putPairs], by simp [persistWrites],
            by simp [sendChangeResult, hsub, hconf, hok, finalStore]⟩
        · exact ⟨[Event.smtpSend, Event.err (pyExcMessage PyExc.smtpError)],
            by simp [sendChangeResult, hsub, hconf, hok, finalEvents],
            by simp [putPairs], by simp [persistWrites],
            by simp [sendChangeResult, hsub, hconf, hok, finalStore]⟩
      · exact ⟨[], by simp [sendChangeResult, hsub, hconf, finalEvents],
          by simp [putPairs], by simp [persistWrites],
          by simp [sendChangeResult, hsub, hconf, finalStore]⟩
    · exact ⟨[], by simp [sendChangeResult, hsub, finalEvents],
        by simp [putPairs], by simp [persistWrites],
        by simp [sendChangeResult, hsub, finalStore]⟩

/-- When an attempted notification send succeeds, `sendChangeResult`
completes normally. -/
theorem sendChangeResult_ok (env : Env) (s : St) (hok : env.smtpOk = true) :
    ∃ extra, sendChangeResult env s = Res.ok () { s with events := s.events ++ extra } ∧
      putPairs extra = [] ∧ persistWrites extra = [] := by
  obtain ⟨sst, sfl, snr, snh, sev⟩ := s
  rcases sst with _ | f
  · exact ⟨[], by simp [sendChangeResult], by simp [putPairs], by simp [persistWrites]⟩
  · by_cases hsub : f.emailChangeResultSubject.isSome
    · by_cases hconf : emailFullyConfigured f
      · exact ⟨[Event.smtpSend], by simp [sendChangeResult, hsub, hconf, hok],
          by simp [putPairs], by simp [persistWrites]⟩
      · exact ⟨[], by simp [sendChangeResult, hsub, hconf], by simp [putPairs],
          by simp [persistWrites]⟩
    · exact ⟨[], by simp [sendChangeResult, hsub], by simp [putPairs],
        by simp [persistWrites]⟩

/-- The tail of a changed run under a working file logger (summary line,
then the optional notification): it only appends non-PUT, non-persist
events and never touches the store. -/
theorem finishChanged_events (env : Env) (s : St) (g : IniFile)
    (hst : s.store = some g) (hlog : loggerInit g = LoggerOutcome.ready true) :
    ∃ extra, finalEvents (finishChanged env s) = s.events ++ extra ∧
      putPairs extra = [] ∧ persistWrites extra = [] ∧
      finalStore (finishChanged env s) = s.store := by
  have hli := loggerInfo_ok "IP address updated on Gandi." s g hst hlog
  obtain ⟨extra2, hev2, hput2, hpers2, hst2⟩ :=
    sendChangeResult_events env
      { s with events := s.events ++ [Event.info "IP address updated on Gandi."] }
  refine ⟨Event.info "IP address updated on Gandi." :: extra2, ?_, ?_, ?_, ?_⟩
  · simp only [finishChanged, hli]
    rw [hev2]
    simp
  · simp only [putPairs] at hput2 ⊢
    simp [hput2]
  · simp only [persistWrites] at hpers2 ⊢
    simp [hpers2]
  · simp only [finishChanged, hli]
    rw [hst2]

/-- After a normally-finished update loop, the rest of a changed run
(summary line, then notification, when an attempted send succeeds)
leaves the run at exit code 0, keeps every event already in the trace,
and adds no update call. -/
theorem notify_after_loop (env : Env) (s6 : St) (g : IniFile)
    (hst : s6.store = some g) (hlog : loggerInit g = LoggerOutcome.ready true)
    (hok : env.smtpOk = true) :
    putPairs (finalEvents (finishChanged env s6)) = putPairs s6.events ∧
    exitCode (finishChanged env s6) = 0 ∧
    ∀ e, e ∈ s6.events → e ∈ finalEvents (finishChanged env s6) := by
  have hli := loggerInfo_ok "IP address updated on Gandi." s6 g hst hlog
  obtain ⟨extra2, hok2, hput2, hpers2⟩ :=
    sendChangeResult_ok env
      { s6 with events := s6.events ++ [Event.info "IP address updated on Gandi."] } hok
  have hfin : finishChanged env s6 =
      Res.ok () { s6 with events :=
        (s6.events ++ [Event.info "IP address updated on Gandi."]) ++ extra2 } := by
    simp only [finishChanged, hli]
    rw [hok2]
  rw [hfin]
  refine ⟨?_, rfl, ?_⟩
  · simp only [putPairs, finalEvents] at hput2 ⊢
    simp [List.filterMap_append, hput2]
  · intro e he
    simp [finalEvents, he]

/-- A changed run (stored address present, non-blank, different from the
first resolution; parseable SMTP port; working file logger) reduces to
the update loop over the configured hosts, started after the
re-resolve-and-persist step. -/
theorem run_changed_start (env : Env) (f : IniFile) (p cur cur2 : String)
    (hv : f.version = some VERSION)
    (ha : f.apikey ≠ none) (hd : f.ddnsHostname ≠ none)
    (hu : f.livednsRecordUrl ≠ none) (hh : f.hosts ≠ none)
    (hip : f.ip = some p) (hp : p ≠ "")
    (h0 : env.resolver 0 = some cur) (hne : p ≠ cur)
    (h1 : env.resolver 1 = some cur2)
    (hport : intOk f.smtpServerPort = true)
    (hlog : loggerInit f = LoggerOutcome.ready true) :
    script env (some f) =
      (match updateLoop env cur (pySplit ',' (f.hosts.getD ""))
          (changedState f p cur cur2) with
        | Res.halt h s6 => Res.halt h s6
        | Res.ok _ s6 => finishChanged env s6) := by
  have hip' : ¬(f.ip = none ∨ f.ip = some "") := by simp [hip, hp]
  rw [script_steps env f hv ha hd hu hh hip' hport]
  simp [updateARecords, getPreviousIPAddress, getCurrentIpAddress, saveCurrentIPAddress,
        loggerInfo, hip, hp, h0, h1, hne, pyStr, fieldsOf, changedState, hlog]

/-- In a changed run whose loop finishes normally, the rest of the run is
the summary line and the notification step. -/
theorem run_changed_loop_ok (env : Env) (f : IniFile) (p cur cur2 : String) (s6 : St)
    (hv : f.version = some VERSION)
    (ha : f.apikey ≠ none) (hd : f.ddnsHostname ≠ none)
    (hu : f.livednsRecordUrl ≠ none) (hh : f.hosts ≠ none)
    (hip : f.ip = some p) (hp : p ≠ "")
    (h0 : env.resolver 0 = some cur) (hne : p ≠ cur)
    (h1 : env.resolver 1 = some cur2)
    (hport : intOk f.smtpServerPort = true)
    (hlog : loggerInit f = LoggerOutcome.ready true)
    (hL : updateLoop env cur (pySplit ',' (f.hosts.getD ""))
        (changedState f p cur cur2) = Res.ok () s6) :
    script env (some f) = finishChanged env s6 := by
  rw [run_changed_start env f p cur cur2 hv ha hd hu hh hip hp h0 hne h1 hport hlog, hL]

/-- Claim C1, amended.  In every changed run in which the persist-time
resolution succeeds, no update request fails at the transport level, the
SMTP port parses and the `Logger` constructs with a log file, the
orchestrator rewrites the store exactly once, with the result `cur2` of
a SECOND, independent resolution (equal to the propagated address
whenever the resolver is stable within the run), strictly before any
update call; it then issues exactly one update call per configured host,
in configuration order, each carrying the FIRST resolution result
`cur`. -/
theorem claim1_persist_before_propagate (env : Env) (f : IniFile) (p cur cur2 : String)
    (hv : f.version = some VERSION)
    (ha : f.apikey ≠ none) (hd : f.ddnsHostname ≠ none)
    (hu : f.livednsRecordUrl ≠ none) (hh : f.hosts ≠ none)
    (hip : f.ip = some p) (hp : p ≠ "")
    (h0 : env.resolver 0 = some cur) (hne : p ≠ cur)
    (h1 : env.resolver 1 = some cur2)
    (hport : intOk f.smtpServerPort = true)
    (hlog : loggerInit f = LoggerOutcome.ready true)
    (hall : ∀ i, ∃ c, env.http i = HttpOutcome.status c) :
    ∃ es2,
      finalEvents (script env (some f)) =
        [Event.resolve (some cur), Event.info ("Current IP address:  " ++ cur),
         Event.info ("Previous IP address: " ++ p), Event.resolve (some cur2)] ++
        Event.fileWrite { f with ip := some cur2 } :: es2 ∧
      putPairs es2 = (pySplit ',' (f.hosts.getD "")).map (fun h => (pyStrip h, cur)) ∧
      persistWrites es2 = [] ∧
      persistWrites (finalEvents (script env (some f))) = [some cur2] := by
  have hlog2 : loggerInit { f with ip := some cur2 } = LoggerOutcome.ready true := hlog
  obtain ⟨extra, heq, hput, hpers⟩ :=
    updateLoop_statuses env cur { f with ip := some cur2 } hlog2 hall
      (pySplit ',' (f.hosts.getD "")) (changedState f p cur cur2) rfl
  have hscript :=
    run_changed_loop_ok env f p cur cur2 _ hv ha hd hu hh hip hp h0 hne h1 hport hlog heq
  obtain ⟨extraF, hevF, hputF, hpersF, hstF⟩ :=
    finishChanged_events env
      { changedState f p cur cur2 with
        nHttp := (changedState f p cur cur2).nHttp + (pySplit ',' (f.hosts.getD "")).length,
        events := (changedState f p cur cur2).events ++ extra }
      { f with ip := some cur2 } rfl hlog2
  refine ⟨extra ++ extraF, ?_, ?_, ?_, ?_⟩
  · rw [hscript, hevF]
    simp [changedState]
  · simp only [putPairs] at hput hputF ⊢
    simp [List.filterMap_append, hput, hputF]
  · simp only [persistWrites] at hpers hpersF ⊢
    simp [List.filterMap_append, hpers, hpersF]
  · rw [hscript, hevF]
    simp only [persistWrites] at hpers hpersF ⊢
    simp [changedState, List.filterMap_append, hpers, hpersF]

/-- Counterexample to C1 as stated: with previous address `1.1.1.1`, a
first resolution `2.2.2.2` and a second resolution `3.3.3.3`, the single
persisted value is `3.3.3.3` while every update call carries `2.2.2.2`,
so the value persisted is NOT the freshly resolved address the claim says
is persisted and propagated. -/
theorem claim1_counterexample :
    persistWrites (finalEvents (script envTwoAddr (some iniOneHost))) = [some "3.3.3.3"] ∧
    putPairs (finalEvents (script envTwoAddr (some iniOneHost))) = [("a.example.com", "2.2.2.2")] ∧
    (some "3.3.3.3" : Option String) ≠ some "2.2.2.2" := by
  decide

/-- Witness for the amended C1 at a concrete store and environment. -/
theorem claim1_witness :
    baseIni.ip = some "1.1.1.1" ∧ envTwoAddr.resolver 0 = some "2.2.2.2" ∧
    envTwoAddr.resolver 1 = some "3.3.3.3" ∧
    (∃ es2,
      finalEvents (script envTwoAddr (some baseIni)) =
        [Event.resolve (some "2.2.2.2"), Event.info ("Current IP address:  " ++ "2.2.2.2"),
         Event.info ("Previous IP address: " ++ "1.1.1.1"), Event.resolve (some "3.3.3.3")] ++
        Event.fileWrite { baseIni with ip := some "3.3.3.3" } :: es2 ∧
      putPairs es2 = (pySplit ',' (baseIni.hosts.getD "")).map (fun h => (pyStrip h, "2.2.2.2")) ∧
      persistWrites es2 = [] ∧
      persistWrites (finalEvents (script envTwoAddr (some baseIni))) = [some "3.3.3.3"]) :=
  ⟨rfl, rfl, rfl,
    claim1_persist_before_propagate envTwoAddr baseIni "1.1.1.1" "2.2.2.2" "3.3.3.3" rfl
      (by decide) (by decide) (by decide) (by decide) rfl (by decide) rfl (by decide) rfl
      (by decide) (by decide) (fun i => ⟨201, rfl⟩)⟩

/-- Claim C4, amended.  A host update attempt that receives an HTTP
response is classified Updated exactly on status 201 (success line) and
as that host's failure on any other status, in both cases returning
normally so the loop continues with the remaining hosts (under a working
file logger, which the per-host log line goes through); but a transport
failure of the request itself raises an uncaught exception that aborts
the run instead of being recorded as a per-host failure. -/
theorem claim4_update_outcome (env : Env) (host curIp : String) (s : St) (g : IniFile) (c : Nat)
    (hst : s.store = some g) (hlog : loggerInit g = LoggerOutcome.ready true) :
    (env.http s.nHttp = HttpOutcome.status c →
      updateARecord env host curIp s =
        Res.ok () { s with nHttp := s.nHttp + 1,
                           events := s.events ++
                             [Event.put (pyReplace (s.fields.liveDNSRecordUrl.getD "") hostPlaceholder host)
                                host curIp (HttpOutcome.status c),
                              if c = 201 then Event.info ("IP address for " ++ host ++ " updated.")
                              else Event.err ("Can\x27t update the IP address for " ++ host ++ ".")] }) ∧
    (env.http s.nHttp = HttpOutcome.transportError →
      updateARecord env host curIp s =
        Res.halt (Halt.raised PyExc.transportError)
          { s with nHttp := s.nHttp + 1,
                   events := s.events ++
                     [Event.put (pyReplace (s.fields.liveDNSRecordUrl.getD "") hostPlaceholder host)
                        host curIp HttpOutcome.transportError] }) :=
  ⟨fun hc => updateARecord_status env host curIp s g c hst hlog hc,
   fun hc => updateARecord_transport env host curIp s hc⟩

/-- Counterexample to C4 as stated: a transport failure on the first of
two hosts aborts the whole run (exit 1) instead of being recorded as a
per-host failure: only one PUT is attempted, no failure line is logged
for the host, and the second host is never tried. -/
theorem claim4_counterexample :
    exitCode (script envTransportFail (some baseIni)) = 1 ∧
    putPairs (finalEvents (script envTransportFail (some baseIni))) =
      [("a.example.com", "2.2.2.2")] ∧
    Event.err "Can\x27t update the IP address for a.example.com." ∉
      finalEvents (script envTransportFail (some baseIni)) := by
  decide

/-- Witness for the amended C4: a 500 response is a recorded per-host
failure with the loop continuing, a transport failure is an aborting
exception. -/
theorem claim4_witness :
    (envFirstHttp500.http (stOf baseIni).nHttp = HttpOutcome.status 500 ∧
     updateARecord envFirstHttp500 "a.example.com" "2.2.2.2" (stOf baseIni) =
       Res.ok () { (stOf baseIni) with
                   nHttp := (stOf baseIni).nHttp + 1,
                   events := (stOf baseIni).events ++
                     [Event.put (pyReplace ((stOf baseIni).fields.liveDNSRecordUrl.getD "") hostPlaceholder "a.example.com")
                        "a.example.com" "2.2.2.2" (HttpOutcome.status 500),
                      if 500 = 201 then Event.info ("IP address for " ++ "a.example.com" ++ " updated.")
                      else Event.err ("Can\x27t update the IP address for " ++ "a.example.com" ++ ".")] }) ∧
    (envTransportFail.http (stOf baseIni).nHttp = HttpOutcome.transportError ∧
     updateARecord envTransportFail "a.example.com" "2.2.2.2" (stOf baseIni) =
       Res.halt (Halt.raised PyExc.transportError)
         { (stOf baseIni) with
           nHttp := (stOf baseIni).nHttp + 1,
           events := (stOf baseIni).events ++
             [Event.put (pyReplace ((stOf baseIni).fields.liveDNSRecordUrl.getD "") hostPlaceholder "a.example.com")
                "a.example.com" "2.2.2.2" HttpOutcome.transportError] }) :=
  ⟨⟨rfl, (claim4_update_outcome envFirstHttp500 "a.example.com" "2.2.2.2" (stOf baseIni)
      baseIni 500 rfl (by decide)).1 rfl⟩,
   ⟨rfl, (claim4_update_outcome envTransportFail "a.example.com" "2.2.2.2" (stOf baseIni)
      baseIni 500 rfl (by decide)).2 rfl⟩⟩

/-- Claim C5.  In a changed run with two configured hosts where the first
update call reports a non-201 status and the second reports 201 (the
SMTP port parsing and the `Logger` constructing with a log file, so the
run is not killed earlier), both calls are attempted (in order, carrying
the resolved address), host 1 is recorded as failed, host 2 as updated,
and, provided the optional notification step does not itself raise, the
process terminates with exit code 0. -/
theorem claim5_partial_failure_isolated (env : Env) (f : IniFile)
    (p cur cur2 hs hA hB : String) (c : Nat)
    (hv : f.version = some VERSION)
    (ha : f.apikey ≠ none) (hd : f.ddnsHostname ≠ none)
    (hu : f.livednsRecordUrl ≠ none) (hh : f.hosts ≠ none)
    (hip : f.ip = some p) (hp : p ≠ "")
    (h0 : env.resolver 0 = some cur) (hne : p ≠ cur)
    (h1 : env.resolver 1 = some cur2)
    (hport : intOk f.smtpServerPort = true)
    (hlog : loggerInit f = LoggerOutcome.ready true)
    (hhosts : f.hosts = some hs) (hsplit : pySplit ',' hs = [hA, hB])
    (hc0 : env.http 0 = HttpOutcome.status c) (hcne : c ≠ 201)
    (hc1 : env.http 1 = HttpOutcome.status 201)
    (hok : env.smtpOk = true) :
    putPairs (finalEvents (script env (some f))) = [(pyStrip hA, cur), (pyStrip hB, cur)] ∧
    Event.err ("Can\x27t update the IP address for " ++ pyStrip hA ++ ".") ∈
      finalEvents (script env (some f)) ∧
    Event.info ("IP address for " ++ pyStrip hB ++ " updated.") ∈
      finalEvents (script env (some f)) ∧
    exitCode (script env (some f)) = 0 := by
  have hlog2 : loggerInit { f with ip := some cur2 } = LoggerOutcome.ready true := hlog
  have hsp : pySplit ',' (f.hosts.getD "") = [hA, hB] := by
    rw [hhosts]
    simpa using hsplit
  have hL := updateLoop_two env cur hA hB (changedState f p cur cur2)
    { f with ip := some cur2 } c rfl hlog2 hc0 hcne hc1
  have hL' := hsp.symm ▸ hL
  have hscript :=
    run_changed_loop_ok env f p cur cur2 _ hv ha hd hu hh hip hp h0 hne h1 hport hlog hL'
  have hnot := notify_after_loop env
    { changedState f p cur cur2 with
      nHttp := (changedState f p cur cur2).nHttp + 1 + 1,
      events := (changedState f p cur cur2).events ++
        [Event.put (pyReplace ((changedState f p cur cur2).fields.liveDNSRecordUrl.getD "")
            hostPlaceholder (pyStrip hA)) (pyStrip hA) cur (HttpOutcome.status c),
         Event.err ("Can\x27t update the IP address for " ++ pyStrip hA ++ "."),
         Event.put (pyReplace ((changedState f p cur cur2).fields.liveDNSRecordUrl.getD "")
            hostPlaceholder (pyStrip hB)) (pyStrip hB) cur (HttpOutcome.status 201),
         Event.info ("IP address for " ++ pyStrip hB ++ " updated.")] }
    { f with ip := some cur2 } rfl hlog2 hok
  refine ⟨?_, ?_, ?_, ?_⟩
  · rw [hscript]
    exact hnot.1.trans (by simp [changedState, putPairs])
  · rw [hscript]
    exact hnot.2.2 _ (by simp [changedState])
  · rw [hscript]
    exact hnot.2.2 _ (by simp [changedState])
  · rw [hscript]
    exact hnot.2.1

/-- Witness for C5 at a concrete store and environment (two hosts, first
answer 500, second 201, notification disabled). -/
theorem claim5_witness :
    baseIni.ip = some "1.1.1.1" ∧
    envFirstHttp500.http 0 = HttpOutcome.status 500 ∧
    envFirstHttp500.http 1 = HttpOutcome.status 201 ∧
    (putPairs (finalEvents (script envFirstHttp500 (some baseIni))) =
       [(pyStrip "a.example.com", "2.2.2.2"), (pyStrip "b.example.com", "2.2.2.2")] ∧
     Event.err ("Can\x27t update the IP address for " ++ pyStrip "a.example.com" ++ ".") ∈
       finalEvents (script envFirstHttp500 (some baseIni)) ∧
     Event.info ("IP address for " ++ pyStrip "b.example.com" ++ " updated.") ∈
       finalEvents (script envFirstHttp500 (some baseIni)) ∧
     exitCode (script envFirstHttp500 (some baseIni)) = 0) :=
  ⟨rfl, rfl, rfl,
    claim5_partial_failure_isolated envFirstHttp500 baseIni "1.1.1.1" "2.2.2.2" "3.3.3.3"
      "a.example.com,b.example.com" "a.example.com" "b.example.com" 500
      rfl (by decide) (by decide) (by decide) (by decide) rfl (by decide) rfl (by decide) rfl
      (by decide) (by decide) rfl (by decide) rfl (by decide) rfl rfl⟩

/-- Claim C7, amended.  With the backing store absent, the run writes the
template (which contains every recognized configuration key), reports it
on stderr and exits 1, with no network operation of any kind; the keys
`ddnsHostname`, `apikey`, `hosts` and the SMTP credentials are commented
placeholders, while all remaining keys, INCLUDING the mandatory
`livednsRecordUrl`, carry uncommented literal defaults. -/
theorem claim7_template_generation :
    (recognizedKeys.all fun sk =>
       templateLines.any fun l =>
         strStarts (sk.2 ++ "=") l || strStarts ("#" ++ sk.2 ++ "=") l) = true ∧
    (commentedTemplateKeys.all fun k =>
       templateLines.any fun l => strStarts ("#" ++ k ++ "=") l) = true ∧
    (literalTemplateKeys.all fun k =>
       templateLines.any fun l => strStarts (k ++ "=") l) = true ∧
    ∀ env : Env, script env none =
      Res.halt (Halt.exited 1)
        { store := some (parseIni templateLines),
          fields := { ip := none, ddnsHostname := none, apikey := none,
                      liveDNSRecordUrl := none, hosts := none },
          nRes := 0, nHttp := 0,
          events := [Event.fileWrite (parseIni templateLines),
                     Event.err "Creating a template file for the settings.\n"] } :=
  ⟨by decide, by decide, by decide, fun env => rfl⟩

/-- Counterexample to C7 as stated: `livednsRecordUrl` is a mandatory key
(its absence is the fatal `Empty setting` error), yet the template writes
it as an uncommented literal default, not as a commented placeholder. -/
theorem claim7_counterexample :
    "livednsRecordUrl" ∈ mandatoryKeys ∧
    (templateLines.any fun l => strStarts "#livednsRecordUrl=" l) = false ∧
    (templateLines.any fun l => strStarts "livednsRecordUrl=" l) = true ∧
    exitCode (script envTwoAddr (some iniNoUrl)) = 1 ∧
    Event.err "Empty setting for General/liveDNSRecordUrl." ∈
      finalEvents (script envTwoAddr (some iniNoUrl)) := by
  decide
